import Mathlib

/-!
Verification of the resolution / materialization core of the animehub repository.

The Rust source under src/src-tauri/src is embedded shallowly:

* machine floats (`f64` confidence scores) are modelled as integers counting
  hundredths (0.05 ↦ 5, 0.6 ↦ 60, 1.0 ↦ 100). Every score the code produces
  is a sum of the decimal constants 0.5, 0.2, 0.15, 0.1, 0.05, 0.3, all
  exact multiples of 0.01, and the threshold is 0.6; the comparisons the
  claims exercise are coarse relative to double rounding, and the boundary
  sums that can reach the threshold were checked to round to the same double
  as the 0.6 literal, so exact scaled-integer arithmetic decides the same
  way as the compiled program;
* `Uuid` values are modelled as natural numbers; `Uuid::new_v4` calls are
  modelled by a fresh counter threaded through the state;
* the deterministic digests (`DefaultHasher` / SHA-256 fingerprints) are
  modelled injectively by the tuple of hashed components, as documented in
  the DETERMINISM COMPONENTS comments of the source; hash collisions are
  assumed absent;
* repositories are in-memory lists; repository calls therefore never fail,
  matching the read paths the claims are about;
* wall-clock data (`Utc::now`, `Instant`, `duration_ms`) is operational
  metadata excluded from every fingerprint and every claim, and is omitted;
* `PathBuf` is modelled as a `String` with `/` separators.
-/

namespace AnimeHub

abbrev Uuid := Nat

/-- domain/file/entity.rs: `FileType` -/
inductive FileType
| video
| legenda
| imagem
| outro
deriving DecidableEq, Repr

/-- domain/resolution/value_objects.rs: `FileRole` -/
inductive FileRole
| video
| subtitle
| image
deriving DecidableEq, Repr

/-- `Display for FileRole` -/
def FileRole.toOutput : FileRole → String
| .video => "video"
| .subtitle => "subtitle"
| .image => "image"

/-- domain/resolution/value_objects.rs: `ResolutionSource` -/
inductive ResolutionSource
| filename
| folderName
deriving DecidableEq, Repr

/-- `Display for ResolutionSource` -/
def ResolutionSource.toOutput : ResolutionSource → String
| .filename => "filename"
| .folderName => "folder_name"

/-- domain/resolution/value_objects.rs: `ResolvedEpisodeNumber` -/
inductive ResolvedEpisodeNumber
| regular (number : Nat)
| special (label : String)
deriving DecidableEq, Repr

/-- `Display for ResolvedEpisodeNumber` -/
def ResolvedEpisodeNumber.toOutput : ResolvedEpisodeNumber → String
| .regular number => toString number
| .special label => label

/-- domain/resolution/value_objects.rs: `ResolutionConfidence` (score is an
`f64` clamped to [0,1], modelled in hundredths). -/
structure ResolutionConfidence where
  score : Int
deriving DecidableEq, Repr

namespace ResolutionConfidence

/-- `ResolutionConfidence::THRESHOLD = 0.6` (in hundredths). -/
def THRESHOLD : Int := 60

/-- `ResolutionConfidence::new`: clamp the score to [0.0, 1.0]
(here [0, 100]). -/
def new (score : Int) : ResolutionConfidence :=
  ⟨max 0 (min score 100)⟩

/-- `ResolutionConfidence::meets_threshold`: `score >= THRESHOLD`. -/
def meets_threshold (c : ResolutionConfidence) : Bool :=
  decide (THRESHOLD ≤ c.score)

end ResolutionConfidence

/-- domain/resolution/value_objects.rs: `ResolutionFailureReason` -/
inductive ResolutionFailureReason
| unparsableFilename
| noEpisodeNumber
| lowConfidence
| unsupportedFileType
| repositoryError
deriving DecidableEq, Repr

/-- `Display for ResolutionFailureReason` -/
def ResolutionFailureReason.toOutput : ResolutionFailureReason → String
| .unparsableFilename => "unparsable_filename"
| .noEpisodeNumber => "no_episode_number"
| .lowConfidence => "low_confidence"
| .unsupportedFileType => "unsupported_file_type"
| .repositoryError => "repository_error"

/-- The deterministic resolution fingerprint. The source computes a
`DefaultHasher` digest over the documented components (`ResolvedFile::fingerprint`
hashes file_id, lowercased title, episode number string and role string;
`ResolutionFailure::fingerprint` hashes file_id and the reason string and carries a distinguishing "fail:"
marker). The digest is modelled injectively by the hashed components
themselves. -/
inductive ResolutionFingerprint
| success (file_id : Uuid) (title_lower : String) (number_str : String) (role_str : String)
| failure (file_id : Uuid) (reason_str : String)
deriving DecidableEq, Repr

-- ============================================================================
-- String primitives, implemented structurally over character lists so that
-- concrete runs reduce in the kernel
-- ============================================================================

/-- The list-level core of splitting at separator characters satisfying `p`
(empty segments kept, as `String::split` does). -/
def splitWhen (p : Char → Bool) (cs : List Char) : List (List Char) :=
  cs.foldr (fun c acc =>
    match acc with
    | w :: rest => if p c then [] :: w :: rest else (c :: w) :: rest
    | [] => [[c]]) [[]]

/-- `str::to_lowercase` (the embedded inputs are ASCII). -/
def strLower (s : String) : String :=
  String.mk (s.toList.map Char.toLower)

/-- `str::trim`: strip leading and trailing whitespace. -/
def strTrim (s : String) : String :=
  String.mk
    (((s.toList.dropWhile Char.isWhitespace).reverse.dropWhile
      Char.isWhitespace).reverse)

/-- Decimal value of a digit run. -/
def digitsVal (ds : List Char) : Nat :=
  ds.foldl (fun n c => n * 10 + (c.toNat - 48)) 0

-- ============================================================================
-- Path handling (std::path::Path, modelled over strings with `/` separators)
-- ============================================================================

/-- The non-empty components of a path string. -/
def pathComponents (p : String) : List String :=
  ((splitWhen (fun c => c == '/') p.toList).filter
    (fun w => !w.isEmpty)).map String.mk

/-- `Path::file_name`: the last component, when there is one. -/
def pathFileName (p : String) : Option String :=
  (pathComponents p).getLast?

/-- `Path::file_stem` applied to a file name: the whole name when it has no
dot past position zero, otherwise the portion before the last such dot. -/
def fileStemOfName (name : String) : String :=
  let cs := name.toList
  let dotIdxs := (List.range cs.length).filter
    (fun i => cs.getD i ' ' == '.' && decide (1 ≤ i))
  match dotIdxs.getLast? with
  | none => name
  | some i => String.mk (cs.take i)

/-- `path.file_stem().and_then(|s| s.to_str())` -/
def pathFileStem (p : String) : Option String :=
  (pathFileName p).map fileStemOfName

/-- `path.parent().and_then(|p| p.file_name())`: the name of the immediate
parent folder, when the path has at least two components. -/
def pathParentFolder (p : String) : Option String :=
  match (pathComponents p).reverse with
  | _ :: parent :: _ => some parent
  | _ => none

-- ============================================================================
-- Resolution Rules: the regex pattern cascade of resolution_service.rs,
-- each regex embedded as a scanner with leftmost-first preference semantics
-- ============================================================================

/-- Length of the leading whitespace run. -/
def wsCount (l : List Char) : Nat :=
  (l.takeWhile Char.isWhitespace).length

/-- Drop the leading whitespace run (greedy `\s*`). -/
def dropWs (l : List Char) : List Char :=
  l.dropWhile Char.isWhitespace

/-- The leading digit run (greedy `\d*` / `\d+`). -/
def digitRun (l : List Char) : List Char :=
  l.takeWhile Char.isDigit

/-- Whether the literal `lit` occurs at the start of `l`. -/
def litAt (lit : List Char) (l : List Char) : Bool :=
  l.take lit.length == lit

/-- Matches `\s*-\s*\d+` as a prefix of `l`. Deterministic despite the greedy
stars: whitespace is disjoint from `-` and from digits. -/
def tailDashNum (l : List Char) : Bool :=
  match dropWs l with
  | '-' :: r =>
    match dropWs r with
    | c :: _ => c.isDigit
    | [] => false
  | _ => false

/-- Matches `\s*S\d+E\d+` as a prefix of `l`. -/
def tailSE (l : List Char) : Bool :=
  match dropWs l with
  | 'S' :: r =>
    let ds := digitRun r
    !ds.isEmpty &&
      (match r.drop ds.length with
       | 'E' :: r3 => !(digitRun r3).isEmpty
       | _ => false)
  | _ => false

/-- Matches `\s*Episode\s*\d+` as a prefix of `l`. -/
def tailEpisode (l : List Char) : Bool :=
  let l1 := dropWs l
  litAt "Episode".toList l1 && !(digitRun (dropWs (l1.drop 7))).isEmpty

/-- The lazy group `^(.+?)` followed by `tail`: the capture is the shortest
non-empty prefix whose remainder satisfies `tail` (leftmost-first regex
preference). -/
def lazyCapture (tail : List Char → Bool) (l : List Char) : Option (List Char) :=
  ((List.range (l.length + 1)).find?
    (fun i => decide (1 ≤ i) && tail (l.drop i))).map (fun i => l.take i)

/-- Title pattern `^\[.*?\]\s*(.+?)\s*-\s*\d+`. Preference order of the
backtracking choice points: the lazy `.*?` tries the closing brackets from
left to right; the greedy `\s*` tries the longest whitespace run first; the
lazy `(.+?)` takes the shortest workable capture. -/
def titlePatBracket (cs : List Char) : Option (List Char) :=
  match cs with
  | '[' :: rest =>
    (List.range rest.length).findSome? (fun j =>
      if rest.getD j ' ' == ']' then
        let after := rest.drop (j + 1)
        (List.range (wsCount after + 1)).reverse.findSome? (fun a =>
          lazyCapture tailDashNum (after.drop a))
      else none)
  | _ => none

/-- Title pattern `^(.+?)\s*-\s*\d+`. -/
def titlePatDash (cs : List Char) : Option (List Char) :=
  lazyCapture tailDashNum cs

/-- Title pattern `^(.+?)\s*S\d+E\d+`. -/
def titlePatSE (cs : List Char) : Option (List Char) :=
  lazyCapture tailSE cs

/-- Title pattern `^(.+?)\s*Episode\s*\d+`. -/
def titlePatEpisode (cs : List Char) : Option (List Char) :=
  lazyCapture tailEpisode cs

/-- `ResolutionRules::parse_anime_title`: try the ordered filename patterns on
the file stem (first success wins), then fall back to the parent folder name,
rejecting folder names shorter than 3 characters or starting with a dot. -/
def parse_anime_title (path : String) : Option (String × ResolutionSource) :=
  let fromFilename : Option (List Char) :=
    match pathFileStem path with
    | some stem =>
      let cs := stem.toList
      match titlePatBracket cs with
      | some t => some t
      | none =>
        match titlePatDash cs with
        | some t => some t
        | none =>
          match titlePatSE cs with
          | some t => some t
          | none => titlePatEpisode cs
    | none => none
  match fromFilename with
  | some t => some (strTrim (String.mk t), ResolutionSource.filename)
  | none =>
    match pathParentFolder path with
    | some folder =>
      if decide (3 ≤ folder.length) && !(litAt ['.'] folder.toList) then
        some (folder, ResolutionSource.folderName)
      else none
    | none => none

/-- Special-episode pattern `(KW\s*\d*)` for a keyword KW (OVA, OAD, Special,
Movie): the leftmost occurrence of the keyword, extended by the greedy
whitespace run and digit run. -/
def specialPat (kw : List Char) (cs : List Char) : Option (List Char) :=
  ((List.range (cs.length + 1)).find? (fun i => litAt kw (cs.drop i))).map
    (fun i =>
      let r := (cs.drop i).drop kw.length
      let ws := r.takeWhile Char.isWhitespace
      let ds := digitRun (r.drop ws.length)
      kw ++ ws ++ ds)

/-- Numeric pattern `-\s*(\d+)`: leftmost `-` followed, after optional
whitespace, by a digit run (the capture). -/
def numPatDash (cs : List Char) : Option (List Char) :=
  (List.range cs.length).findSome? (fun i =>
    match cs.drop i with
    | '-' :: r =>
      let ds := digitRun (dropWs r)
      if ds.isEmpty then none else some ds
    | _ => none)

/-- Numeric pattern `S\d+E(\d+)`. -/
def numPatSE (cs : List Char) : Option (List Char) :=
  (List.range cs.length).findSome? (fun i =>
    match cs.drop i with
    | 'S' :: r =>
      let ds := digitRun r
      if ds.isEmpty then none
      else
        match r.drop ds.length with
        | 'E' :: r3 =>
          let ds2 := digitRun r3
          if ds2.isEmpty then none else some ds2
        | _ => none
    | _ => none)

/-- Numeric pattern `Episode\s*(\d+)`. -/
def numPatEpisode (cs : List Char) : Option (List Char) :=
  (List.range cs.length).findSome? (fun i =>
    let r := cs.drop i
    if litAt "Episode".toList r then
      let ds := digitRun (dropWs (r.drop 7))
      if ds.isEmpty then none else some ds
    else none)

/-- Numeric pattern `#(\d+)`. -/
def numPatHash (cs : List Char) : Option (List Char) :=
  (List.range cs.length).findSome? (fun i =>
    match cs.drop i with
    | '#' :: r =>
      let ds := digitRun r
      if ds.isEmpty then none else some ds
    | _ => none)

/-- `num_str.as_str().parse::<u32>()` on a captured digit run (the capture
is all digits by construction; the parse fails exactly on `u32` overflow). -/
def parseDigitsU32 (ds : List Char) : Option Nat :=
  if ds.isEmpty then none
  else if digitsVal ds < 2 ^ 32 then some (digitsVal ds) else none

/-- The ordered special-marker cascade of
`ResolutionRules::parse_episode_number`: OVA, OAD, Special, Movie, checked in
this order; it runs before any numeric pattern. -/
def firstSpecial (cs : List Char) : Option (List Char) :=
  match specialPat "OVA".toList cs with
  | some l => some l
  | none =>
    match specialPat "OAD".toList cs with
    | some l => some l
    | none =>
      match specialPat "Special".toList cs with
      | some l => some l
      | none => specialPat "Movie".toList cs

/-- The ordered numeric-pattern cascade of `parse_episode_number`: a pattern
whose captured digits overflow `u32` falls through to the next pattern,
exactly as the `if let Ok` inside the source loop does. -/
def firstNumeric (cs : List Char) : Option Nat :=
  match (numPatDash cs).bind parseDigitsU32 with
  | some n => some n
  | none =>
    match (numPatSE cs).bind parseDigitsU32 with
    | some n => some n
    | none =>
      match (numPatEpisode cs).bind parseDigitsU32 with
      | some n => some n
      | none => (numPatHash cs).bind parseDigitsU32

def parse_episode_number (path : String) :
    Option (ResolvedEpisodeNumber × ResolutionSource) :=
  match pathFileStem path with
  | none => none
  | some stem =>
    match firstSpecial stem.toList with
    | some label =>
      some (ResolvedEpisodeNumber.special (strTrim (String.mk label)),
        ResolutionSource.filename)
    | none =>
      match firstNumeric stem.toList with
      | some n =>
        some (ResolvedEpisodeNumber.regular n, ResolutionSource.filename)
      | none => none

/-- `ResolutionRules::calculate_confidence` (scores in hundredths). Note that
the filename-source bonus is 0.1 for the title but 0.05 for the episode
number in the source. -/
def calculate_confidence (anime_title : String)
    (episode_number : ResolvedEpisodeNumber)
    (anime_matched : Bool) (episode_matched : Bool)
    (anime_source : ResolutionSource) (episode_source : ResolutionSource) :
    ResolutionConfidence :=
  let score : Int := 50
  let score := if anime_matched then score + 20 else score
  let score := if episode_matched then score + 15 else score
  let score := if anime_source = ResolutionSource.filename then score + 10 else score
  let score := if episode_source = ResolutionSource.filename then score + 5 else score
  let score := if anime_title.length < 3 then score - 30 else score
  let score :=
    match episode_number with
    | .special _ => score - 10
    | .regular _ => score
  ResolutionConfidence.new score

/-- `ResolutionRules::normalize_title`: lowercase, replace separator
punctuation by spaces, collapse whitespace. -/
def normalize_title (title : String) : String :=
  let replaced := (strLower title).toList.map (fun c =>
    if c ∈ ['_', '-', '.', ':', ';', '!', '?'] then ' ' else c)
  let words := (splitWhen Char.isWhitespace replaced).filter
    (fun w => !w.isEmpty)
  String.mk (List.intercalate [' '] words)

-- ============================================================================
-- Resolution value objects (domain/resolution/value_objects.rs)
-- ============================================================================

/-- `ResolvedAnimeIntent` -/
structure ResolvedAnimeIntent where
  title : String
  alternative_titles : List String
  matched_anime_id : Option Uuid
  source : ResolutionSource
deriving DecidableEq, Repr

/-- `ResolvedAnimeIntent::from_parsed_title` -/
def ResolvedAnimeIntent.from_parsed_title (title : String)
    (source : ResolutionSource) : ResolvedAnimeIntent :=
  ⟨title, [], none, source⟩

/-- `ResolvedAnimeIntent::matched` -/
def ResolvedAnimeIntent.matched (anime_id : Uuid) (title : String)
    (source : ResolutionSource) : ResolvedAnimeIntent :=
  ⟨title, [], some anime_id, source⟩

/-- `ResolvedEpisodeIntent` -/
structure ResolvedEpisodeIntent where
  number : ResolvedEpisodeNumber
  title : Option String
  matched_episode_id : Option Uuid
  source : ResolutionSource
deriving DecidableEq, Repr

/-- `ResolvedEpisodeIntent::from_parsed_number` -/
def ResolvedEpisodeIntent.from_parsed_number (number : ResolvedEpisodeNumber)
    (source : ResolutionSource) : ResolvedEpisodeIntent :=
  ⟨number, none, none, source⟩

/-- `ResolvedEpisodeIntent::matched` -/
def ResolvedEpisodeIntent.matched (episode_id : Uuid)
    (number : ResolvedEpisodeNumber) (source : ResolutionSource) :
    ResolvedEpisodeIntent :=
  ⟨number, none, some episode_id, source⟩

/-- `ResolvedFile` -/
structure ResolvedFile where
  file_id : Uuid
  file_path : String
  role : FileRole
  anime_intent : ResolvedAnimeIntent
  episode_intent : ResolvedEpisodeIntent
  confidence : ResolutionConfidence
deriving DecidableEq, Repr

/-- `ResolvedFile::fingerprint`: digest over file_id, lowercased title,
episode number string and role string (file_path excluded). -/
def ResolvedFile.fingerprint (f : ResolvedFile) : ResolutionFingerprint :=
  .success f.file_id (strLower f.anime_intent.title)
    f.episode_intent.number.toOutput f.role.toOutput

/-- `ResolutionFailure` -/
structure ResolutionFailure where
  file_id : Uuid
  file_path : String
  reason : ResolutionFailureReason
  description : String
deriving DecidableEq, Repr

/-- `ResolutionFailure::fingerprint`: digest over file_id and the reason
string only. -/
def ResolutionFailure.fingerprint (f : ResolutionFailure) :
    ResolutionFingerprint :=
  .failure f.file_id f.reason.toOutput

/-- `ResolutionResult` -/
inductive ResolutionResult
| success (resolved : ResolvedFile)
| failure (failure : ResolutionFailure)
deriving DecidableEq, Repr

-- ============================================================================
-- Catalog entities (domain/anime, domain/episode, domain/file).
-- Only the fields read or written by the embedded operations are kept;
-- operational timestamps are omitted.
-- ============================================================================

/-- domain/anime/entity.rs: `Anime` (dates kept for `validate_anime`,
modelled as ordinals). -/
structure Anime where
  id : Uuid
  titulo_principal : String
  titulos_alternativos : List String
  data_inicio : Option Nat
  data_fim : Option Nat
deriving DecidableEq, Repr

/-- domain/episode/entity.rs: `EpisodeNumber` -/
inductive EpisodeNumber
| regular (numero : Nat)
| special (label : String)
deriving DecidableEq, Repr

/-- domain/episode/entity.rs: `Episode` -/
structure Episode where
  id : Uuid
  anime_id : Uuid
  numero : EpisodeNumber
  duracao_esperada : Option Nat
  progresso_atual : Nat
deriving DecidableEq, Repr

/-- domain/file/entity.rs: `File` -/
structure File where
  id : Uuid
  caminho_absoluto : String
  tipo : FileType
deriving DecidableEq, Repr

/-- error/types.rs `AppError` together with the domain error variants that
reach the embedded services. -/
inductive AppError
| notFound
| invariantViolation (msg : String)
| progressExceedsDuration (progress duration : Nat)
| other (msg : String)
deriving DecidableEq, Repr

deriving instance DecidableEq for Except

/-- domain/anime/invariants.rs: `validate_anime` (non-empty trimmed title;
start date not after end date). -/
def validate_anime (anime : Anime) : Except AppError Unit :=
  if (strTrim anime.titulo_principal).toList.isEmpty then
    .error (.invariantViolation "Anime title cannot be empty")
  else
    match anime.data_inicio, anime.data_fim with
    | some inicio, some fim =>
      if fim < inicio then .error (.invariantViolation "Start date cannot be after end date")
      else .ok ()
    | _, _ => .ok ()

/-- domain/episode/invariants.rs: `validate_episode` (progress cannot exceed
the expected duration when that is known). -/
def validate_episode (episode : Episode) : Except AppError Unit :=
  match episode.duracao_esperada with
  | some duracao =>
    if duracao < episode.progresso_atual then
      .error (.progressExceedsDuration episode.progresso_atual duracao)
    else .ok ()
  | none => .ok ()

-- ============================================================================
-- Resolution events (events/resolution_events.rs). The payloads carry no
-- timestamps; `duration_ms` of the batch event is informational wall-clock
-- data and is omitted from the model.
-- ============================================================================

/-- The events emitted by the resolution service. -/
inductive REvent
| fileResolved (file_id : Uuid) (file_path : String) (anime_title : String)
    (matched_anime_id : Option Uuid) (episode_number : String)
    (matched_episode_id : Option Uuid) (file_role : String)
    (confidence : Int) (source : String) (fingerprint : ResolutionFingerprint)
| episodeResolved (anime_title : String) (matched_anime_id : Option Uuid)
    (episode_number : String) (matched_episode_id : Option Uuid)
    (video_file_id : Option Uuid) (subtitle_file_ids : List Uuid)
    (image_file_ids : List Uuid) (confidence : Int)
| resolutionFailed (file_id : Uuid) (file_path : String) (reason : String)
    (description : String) (fingerprint : ResolutionFingerprint)
| resolutionSkipped (file_id : Uuid) (file_path : String)
    (existing_fingerprint : ResolutionFingerprint) (reason : String)
| resolutionBatchCompleted (total_files resolved_count failed_count
    skipped_count episodes_aggregated : Nat)
deriving DecidableEq, Repr

-- ============================================================================
-- Resolution Service (services/resolution_service.rs)
-- ============================================================================

/-- The state visible to the resolution service: the three read-only
repositories, the in-memory idempotency set and the bus emission log. -/
structure ResolutionState where
  files : List File
  animes : List Anime
  episodes : List Episode
  resolved_fingerprints : List ResolutionFingerprint
  events : List REvent
deriving DecidableEq, Repr

/-- `FileRepository::get_by_id` -/
def get_file_by_id (s : ResolutionState) (file_id : Uuid) : Option File :=
  s.files.find? (fun f => f.id == file_id)

/-- `EpisodeRepository::list_by_anime` -/
def list_by_anime (s : ResolutionState) (anime_id : Uuid) : List Episode :=
  s.episodes.filter (fun e => e.anime_id == anime_id)

/-- `ResolutionService::try_match_anime`: normalized exact title match over
`list_all`, read-only. -/
def try_match_anime (s : ResolutionState) (title : String) : Option Uuid :=
  (s.animes.find? (fun anime =>
    normalize_title anime.titulo_principal == normalize_title title)).map
    (fun anime => anime.id)

/-- `ResolutionService::try_match_episode`: exact numeric equality for
regular numbers, case-insensitive label equality for specials. -/
def try_match_episode (s : ResolutionState) (anime_id : Uuid)
    (episode_number : ResolvedEpisodeNumber) : Option Uuid :=
  ((list_by_anime s anime_id).find? (fun episode =>
    match episode.numero, episode_number with
    | .regular numero, .regular number => numero == number
    | .special ep_label, .special res_label =>
      strLower ep_label == strLower res_label
    | _, _ => false)).map (fun episode => episode.id)

/-- Step 1 of `resolve_file_internal`: role classification by file kind;
`Outro` yields no role and an `UnsupportedFileType` failure. -/
def roleOfFileType : FileType → Option FileRole
| .video => some .video
| .legenda => some .subtitle
| .imagem => some .image
| .outro => none

/-- `ResolutionService::resolve_file_internal`: classify, parse title, parse
number, read-only matches, confidence, threshold gate, build the intent.
Failure descriptions are abbreviated; claims depend only on the reasons. -/
def resolve_file_internal (s : ResolutionState) (file : File) :
    ResolutionResult :=
  match roleOfFileType file.tipo with
  | none =>
    .failure ⟨file.id, file.caminho_absoluto, .unsupportedFileType,
      "File type outro is not supported for resolution"⟩
  | some role =>
    match parse_anime_title file.caminho_absoluto with
    | none =>
      .failure ⟨file.id, file.caminho_absoluto, .unparsableFilename,
        "Could not extract anime title from filename or folder"⟩
    | some (anime_title, anime_source) =>
      match parse_episode_number file.caminho_absoluto with
      | none =>
        .failure ⟨file.id, file.caminho_absoluto, .noEpisodeNumber,
          "Could not extract episode number from filename"⟩
      | some (episode_number, episode_source) =>
        let matched_anime_id := try_match_anime s anime_title
        let matched_episode_id :=
          match matched_anime_id with
          | some anime_id => try_match_episode s anime_id episode_number
          | none => none
        let confidence := calculate_confidence anime_title episode_number
          matched_anime_id.isSome matched_episode_id.isSome
          anime_source episode_source
        if !confidence.meets_threshold then
          .failure ⟨file.id, file.caminho_absoluto, .lowConfidence,
            "Confidence score is below threshold"⟩
        else
          let anime_intent :=
            match matched_anime_id with
            | some id => ResolvedAnimeIntent.matched id anime_title anime_source
            | none => ResolvedAnimeIntent.from_parsed_title anime_title anime_source
          let episode_intent :=
            match matched_episode_id with
            | some id => ResolvedEpisodeIntent.matched id episode_number episode_source
            | none => ResolvedEpisodeIntent.from_parsed_number episode_number episode_source
          .success ⟨file.id, file.caminho_absoluto, role, anime_intent,
            episode_intent, confidence⟩

/-- `ResolutionService::compute_fingerprint_from_result` -/
def compute_fingerprint_from_result : ResolutionResult → ResolutionFingerprint
| .success resolved => resolved.fingerprint
| .failure failure => failure.fingerprint

/-- `ResolutionService::emit_resolution_event`: the event built for a result
(`FileResolved::new` on success, `ResolutionFailed::new` on failure; the
latter computes its fingerprint over file_id and reason, which coincides with
`ResolutionFailure::fingerprint`). -/
def resolutionEventOf : ResolutionResult → REvent
| .success r =>
  .fileResolved r.file_id r.file_path r.anime_intent.title
    r.anime_intent.matched_anime_id r.episode_intent.number.toOutput
    r.episode_intent.matched_episode_id r.role.toOutput r.confidence.score
    r.anime_intent.source.toOutput r.fingerprint
| .failure f =>
  .resolutionFailed f.file_id f.file_path f.reason.toOutput f.description
    f.fingerprint

/-- `ResolutionOutcome` -/
inductive ResolutionOutcome
| processed (result : ResolutionResult)
| skipped (file_id : Uuid) (fingerprint : ResolutionFingerprint)
deriving DecidableEq, Repr

/-- `ResolutionService::resolve_file`: fetch the file, resolve it internally,
fingerprint the result, consult the idempotency set; when already present
emit only a `ResolutionSkipped` event, otherwise mark the fingerprint and
emit the resolution event. -/
def resolve_file (s : ResolutionState) (file_id : Uuid) :
    Except AppError ResolutionOutcome × ResolutionState :=
  match get_file_by_id s file_id with
  | none => (.error .notFound, s)
  | some f =>
    let result := resolve_file_internal s f
    let fingerprint := compute_fingerprint_from_result result
    if fingerprint ∈ s.resolved_fingerprints then
      (.ok (.skipped f.id fingerprint),
       { s with events := s.events ++
          [.resolutionSkipped f.id f.caminho_absoluto fingerprint
            "already_resolved"] })
    else
      (.ok (.processed result),
       { s with
          resolved_fingerprints := s.resolved_fingerprints ++ [fingerprint],
          events := s.events ++ [resolutionEventOf result] })

-- ============================================================================
-- Batch resolution and episode aggregation
-- ============================================================================

/-- `EpisodeAggregation` -/
structure EpisodeAggregation where
  anime_title : String
  matched_anime_id : Option Uuid
  episode_number : String
  matched_episode_id : Option Uuid
  video_file_id : Option Uuid
  subtitle_file_ids : List Uuid
  image_file_ids : List Uuid
  max_confidence : Int
deriving DecidableEq, Repr

/-- `EpisodeAggregation::new` -/
def EpisodeAggregation.new (anime_title : String)
    (matched_anime_id : Option Uuid) (episode_number : String)
    (matched_episode_id : Option Uuid) : EpisodeAggregation :=
  ⟨anime_title, matched_anime_id, episode_number, matched_episode_id,
   none, [], [], 0⟩

/-- `EpisodeAggregation::add_file`: the first video becomes primary,
subtitle and image ids are collected, the maximum confidence is retained. -/
def EpisodeAggregation.add_file (agg : EpisodeAggregation)
    (resolved : ResolvedFile) : EpisodeAggregation :=
  let agg :=
    match resolved.role with
    | .video =>
      if agg.video_file_id.isNone then
        { agg with video_file_id := some resolved.file_id }
      else agg
    | .subtitle =>
      { agg with subtitle_file_ids := agg.subtitle_file_ids ++ [resolved.file_id] }
    | .image =>
      { agg with image_file_ids := agg.image_file_ids ++ [resolved.file_id] }
  if agg.max_confidence < resolved.confidence.score then
    { agg with max_confidence := resolved.confidence.score }
  else agg

/-- `EpisodeAggregation::into_event` -/
def EpisodeAggregation.into_event (agg : EpisodeAggregation) : REvent :=
  .episodeResolved agg.anime_title agg.matched_anime_id agg.episode_number
    agg.matched_episode_id agg.video_file_id agg.subtitle_file_ids
    agg.image_file_ids agg.max_confidence

/-- The aggregation key `(anime_title.to_lowercase(), number.to_string())`. -/
abbrev AggKey := String × String

/-- The aggregation key of a successfully resolved file. -/
def aggKeyOf (r : ResolvedFile) : AggKey :=
  (strLower r.anime_intent.title, r.episode_intent.number.toOutput)

/-- `episode_aggregation.entry(key).or_insert_with(new).add_file(resolved)`,
with the hash map modelled as an insertion-ordered association list. -/
def aggInsert (m : List (AggKey × EpisodeAggregation)) (r : ResolvedFile) :
    List (AggKey × EpisodeAggregation) :=
  let key := aggKeyOf r
  match m.find? (fun kv => decide (kv.1 = key)) with
  | some _ => m.map (fun kv => if kv.1 = key then (kv.1, kv.2.add_file r) else kv)
  | none =>
    m ++ [(key,
      (EpisodeAggregation.new r.anime_intent.title
        r.anime_intent.matched_anime_id r.episode_intent.number.toOutput
        r.episode_intent.matched_episode_id).add_file r)]

/-- Loop-carried state of `resolve_batch`. -/
structure BatchAcc where
  st : ResolutionState
  results : List ResolutionResult
  resolved_count : Nat
  failed_count : Nat
  skipped_count : Nat
  agg : List (AggKey × EpisodeAggregation)
deriving DecidableEq, Repr

/-- The state update performed by one iteration of the `for file in files`
loop of `resolve_batch`: either only the `ResolutionSkipped` emission, or
marking the fingerprint and emitting the file-level event. -/
def nextBatchState (st : ResolutionState) (file : File) : ResolutionState :=
  let result := resolve_file_internal st file
  let fingerprint := compute_fingerprint_from_result result
  if fingerprint ∈ st.resolved_fingerprints then
    { st with events := st.events ++
      [.resolutionSkipped file.id file.caminho_absoluto fingerprint
        "already_resolved"] }
  else
    { st with
      resolved_fingerprints := st.resolved_fingerprints ++ [fingerprint],
      events := st.events ++ [resolutionEventOf result] }

/-- One iteration of the `for file in files` loop of `resolve_batch`. -/
def batchStep (acc : BatchAcc) (file : File) : BatchAcc :=
  let result := resolve_file_internal acc.st file
  let fingerprint := compute_fingerprint_from_result result
  let st := nextBatchState acc.st file
  if fingerprint ∈ acc.st.resolved_fingerprints then
    { acc with
      st := st,
      skipped_count := acc.skipped_count + 1 }
  else
    match result with
    | .success resolved =>
      { acc with
        st := st,
        results := acc.results ++ [result],
        resolved_count := acc.resolved_count + 1,
        agg := aggInsert acc.agg resolved }
    | .failure _ =>
      { acc with
        st := st,
        results := acc.results ++ [result],
        failed_count := acc.failed_count + 1 }

/-- `ResolutionBatchResult` (without the informational `duration_ms`). -/
structure ResolutionBatchResult where
  results : List ResolutionResult
  total_files : Nat
  resolved_count : Nat
  failed_count : Nat
  skipped_count : Nat
  episodes_aggregated : Nat
deriving DecidableEq, Repr

/-- `ResolutionService::resolve_batch`: the per-file loop, then one
`EpisodeResolved` event per aggregation entry, then the batch completion
event. -/
def resolve_batch (s : ResolutionState) (files : List File) :
    ResolutionBatchResult × ResolutionState :=
  let acc := files.foldl batchStep ⟨s, [], 0, 0, 0, []⟩
  let episodes_aggregated := acc.agg.length
  (⟨acc.results, files.length, acc.resolved_count, acc.failed_count,
    acc.skipped_count, episodes_aggregated⟩,
   { acc.st with events := acc.st.events
      ++ acc.agg.map (fun kv => kv.2.into_event)
      ++ [.resolutionBatchCompleted files.length acc.resolved_count
            acc.failed_count acc.skipped_count episodes_aggregated] })

-- ============================================================================
-- Materialization types (services/materialization_types.rs)
-- ============================================================================

/-- The `FileResolved` event struct consumed by materialization (its
`event_id` is a UUIDv5 of the resolution fingerprint string and is modelled
injectively by the fingerprint). -/
structure FileResolved where
  file_id : Uuid
  file_path : String
  anime_title : String
  matched_anime_id : Option Uuid
  episode_number : String
  matched_episode_id : Option Uuid
  file_role : String
  confidence : ℚ
  source : String
  fingerprint : ResolutionFingerprint
deriving DecidableEq, Repr

/-- `MaterializationFingerprint`: a SHA-256 digest over the documented key
fields, modelled injectively by those fields. `from_file_resolved` hashes
file_id, lowercased title, episode number string and role string;
`from_episode_resolved` hashes lowercased title, episode number string and
the optional primary video id. -/
inductive MaterializationFingerprint
| ofFileResolved (file_id : Uuid) (anime_title_lower : String)
    (episode_number : String) (file_role : String)
| ofEpisodeResolved (anime_title_lower : String) (episode_number : String)
    (video_file_id : Option Uuid)
deriving DecidableEq, Repr

/-- `MaterializationFingerprint::from_file_resolved` -/
def MaterializationFingerprint.from_file_resolved (file_id : Uuid)
    (anime_title episode_number file_role : String) :
    MaterializationFingerprint :=
  .ofFileResolved file_id (strLower anime_title) episode_number file_role

/-- `MaterializationEventType` -/
inductive MaterializationEventType
| fileResolved
| episodeResolved
deriving DecidableEq, Repr

/-- `MaterializationOutcome` -/
inductive MaterializationOutcome
| animeCreated
| animeMatched
| episodeCreated
| episodeMatched
| fileLinked
| skipped
| failed (reason : String)
deriving DecidableEq, Repr

/-- `MaterializationRecord` (the `materialized_at` wall-clock field is
omitted; `id` and the derived `source_event_id` are modelled by a fresh
counter and the source fingerprint). -/
structure MaterializationRecord where
  id : Uuid
  fingerprint : MaterializationFingerprint
  event_type : MaterializationEventType
  source_event_id : ResolutionFingerprint
  anime_id : Option Uuid
  episode_id : Option Uuid
  file_id : Option Uuid
  outcome : MaterializationOutcome
deriving DecidableEq, Repr

/-- `EpisodeNumberDecision` -/
inductive EpisodeNumberDecision
| regular (n : Nat)
| special (label : String)
deriving DecidableEq, Repr

/-- `MaterializationDecision` -/
inductive MaterializationDecision
| createAnime (title : String) (alternative_titles : List String)
| useExistingAnime (anime_id : Uuid)
| createEpisode (anime_id : Uuid) (number : EpisodeNumberDecision)
| useExistingEpisode (episode_id : Uuid)
| linkFile (episode_id : Uuid) (file_id : Uuid) (is_primary : Bool)
| skip (reason : String)
deriving DecidableEq, Repr

/-- `MaterializationResult` -/
structure MaterializationResult where
  fingerprint : MaterializationFingerprint
  anime_id : Option Uuid
  episode_id : Option Uuid
  file_id : Option Uuid
  outcome : MaterializationOutcome
  is_new_anime : Bool
  is_new_episode : Bool
deriving DecidableEq, Repr

/-- `MaterializationResult::skipped` -/
def MaterializationResult.skipped (fingerprint : MaterializationFingerprint) :
    MaterializationResult :=
  ⟨fingerprint, none, none, none, .skipped, false, false⟩

-- ============================================================================
-- Materialization Service (services/materialization_service.rs)
-- ============================================================================

/-- The creation events emitted by materialization (events/types.rs). -/
inductive MEvent
| animeCreated (anime_id : Uuid) (titulo_principal : String) (tipo : String)
| episodeCreated (episode_id : Uuid) (anime_id : Uuid) (numero : String)
| fileLinkedToEpisode (episode_id : Uuid) (file_id : Uuid) (is_primary : Bool)
deriving DecidableEq, Repr

/-- The state visible to the materialization service: the four collaborator
repositories, the bus emission log, and a fresh-id counter modelling
`Uuid::new_v4`. -/
structure MatState where
  animes : List Anime
  episodes : List Episode
  files : List File
  records : List MaterializationRecord
  episode_links : List (Uuid × Uuid)
  events : List MEvent
  fresh : Uuid
deriving DecidableEq, Repr

namespace MaterializationService

/-- `AnimeRepository::get_by_id` -/
def anime_by_id (s : MatState) (anime_id : Uuid) : Option Anime :=
  s.animes.find? (fun a => decide (a.id = anime_id))

/-- `EpisodeRepository::get_by_id` -/
def episode_by_id (s : MatState) (episode_id : Uuid) : Option Episode :=
  s.episodes.find? (fun e => decide (e.id = episode_id))

/-- `FileRepository::get_by_id` -/
def file_by_id (s : MatState) (file_id : Uuid) : Option File :=
  s.files.find? (fun f => decide (f.id = file_id))

/-- `MaterializationRepository::exists_by_fingerprint` -/
def exists_by_fingerprint (s : MatState)
    (fingerprint : MaterializationFingerprint) : Bool :=
  s.records.any (fun r => decide (r.fingerprint = fingerprint))

/-- `MaterializationService::find_anime_by_title`: first anime whose main or
alternate title matches case-insensitively. -/
def find_anime_by_title (s : MatState) (title : String) : Option Anime :=
  let normalized := strLower title
  s.animes.find? (fun anime =>
    decide (strLower anime.titulo_principal = normalized) ||
    anime.titulos_alternativos.any (fun alt =>
      decide (strLower alt = normalized)))

/-- `MaterializationService::decide_anime` -/
def decide_anime (s : MatState) (title : String) (matched_id : Option Uuid) :
    MaterializationDecision :=
  let viaMatch :=
    match matched_id with
    | some anime_id =>
      if (anime_by_id s anime_id).isSome then
        some (MaterializationDecision.useExistingAnime anime_id)
      else none
    | none => none
  match viaMatch with
  | some d => d
  | none =>
    match find_anime_by_title s title with
    | some existing => .useExistingAnime existing.id
    | none => .createAnime title []

/-- `MaterializationService::parse_episode_number` (the string-level parse on
the materialization side; `parse::<u32>` accepts an optional leading plus). -/
def parseU32 (str : String) : Option Nat :=
  let t :=
    match str.toList with
    | '+' :: rest => rest
    | cs => cs
  if t.isEmpty then none
  else if t.all Char.isDigit then
    if digitsVal t < 2 ^ 32 then some (digitsVal t) else none
  else none

/-- `MaterializationService::parse_episode_number`: regular number, else the
start of a range, else a special label. -/
def parse_episode_number (number_str : String) : EpisodeNumberDecision :=
  match parseU32 number_str with
  | some n => .regular n
  | none =>
    if number_str.toList.any (fun c => c == '-') then
      match parseU32 (String.mk
        ((splitWhen (fun c => c == '-') number_str.toList).headD [])) with
      | some n => .regular n
      | none => .special number_str
    else .special number_str

/-- `MaterializationService::find_episode_by_number` -/
def find_episode_by_number (s : MatState) (anime_id : Uuid)
    (number : EpisodeNumberDecision) : Option Episode :=
  (s.episodes.filter (fun e => decide (e.anime_id = anime_id))).find?
    (fun episode =>
      match number, episode.numero with
      | .regular n, .regular numero => decide (numero = n)
      | .special label, .special ep_label =>
        decide (strLower ep_label = strLower label)
      | _, _ => false)

/-- `MaterializationService::decide_episode` -/
def decide_episode (s : MatState) (anime_id : Uuid) (episode_number : String)
    (matched_id : Option Uuid) : MaterializationDecision :=
  let viaMatch :=
    match matched_id with
    | some episode_id =>
      if (episode_by_id s episode_id).isSome then
        some (MaterializationDecision.useExistingEpisode episode_id)
      else none
    | none => none
  match viaMatch with
  | some d => d
  | none =>
    let number_decision := parse_episode_number episode_number
    match find_episode_by_number s anime_id number_decision with
    | some existing => .useExistingEpisode existing.id
    | none => .createEpisode anime_id number_decision

/-- `MaterializationService::execute_anime_decision`: validate the candidate
against the domain invariants before persisting, then save and emit. -/
def execute_anime_decision (s : MatState)
    (decision : MaterializationDecision) :
    Except AppError (Uuid × Bool) × MatState :=
  match decision with
  | .useExistingAnime anime_id => (.ok (anime_id, false), s)
  | .createAnime title alternative_titles =>
    let anime : Anime := ⟨s.fresh, title, alternative_titles, none, none⟩
    match validate_anime anime with
    | .error e => (.error e, s)
    | .ok _ =>
      (.ok (anime.id, true),
       { s with
          animes := s.animes ++ [anime],
          fresh := s.fresh + 1,
          events := s.events ++
            [.animeCreated anime.id anime.titulo_principal "TV"] })
  | _ => (.error (.other "Invalid anime decision"), s)

/-- `MaterializationService::execute_episode_decision` -/
def execute_episode_decision (s : MatState)
    (decision : MaterializationDecision) :
    Except AppError (Uuid × Bool) × MatState :=
  match decision with
  | .useExistingEpisode episode_id => (.ok (episode_id, false), s)
  | .createEpisode anime_id number =>
    let numero :=
      match number with
      | .regular n => EpisodeNumber.regular n
      | .special label => EpisodeNumber.special label
    let episode : Episode := ⟨s.fresh, anime_id, numero, none, 0⟩
    match validate_episode episode with
    | .error e => (.error e, s)
    | .ok _ =>
      let numero_str :=
        match numero with
        | .regular n => toString n
        | .special label => label
      (.ok (episode.id, true),
       { s with
          episodes := s.episodes ++ [episode],
          fresh := s.fresh + 1,
          events := s.events ++
            [.episodeCreated episode.id anime_id numero_str] })
  | _ => (.error (.other "Invalid episode decision"), s)

/-- `MaterializationService::link_file_if_applicable`: only video and
subtitle roles are linked; a missing file is treated as not linked. -/
def link_file_if_applicable (s : MatState) (episode_id : Uuid)
    (file_id : Uuid) (file_role : String) : Bool × MatState :=
  if file_role ≠ "video" ∧ file_role ≠ "subtitle" then (false, s)
  else
    match file_by_id s file_id with
    | none => (false, s)
    | some _ =>
      let is_primary := file_role == "video"
      (true,
       { s with
          episode_links := s.episode_links ++ [(episode_id, file_id)],
          events := s.events ++
            [.fileLinkedToEpisode episode_id file_id is_primary] })

/-- `MaterializationService::determine_outcome` -/
def determine_outcome (is_new_anime is_new_episode file_linked : Bool) :
    MaterializationOutcome :=
  if is_new_anime then .animeCreated
  else if is_new_episode then .episodeCreated
  else if file_linked then .fileLinked
  else .episodeMatched

/-- `MaterializationService::materialize_file_resolved`: fingerprint, check
the ledger (return `Skipped` with no state change when a record exists),
decide and execute the anime and episode decisions, link the file, save one
record keyed by the fingerprint. -/
def materialize_file_resolved (s : MatState) (event : FileResolved) :
    Except AppError MaterializationResult × MatState :=
  let fingerprint := MaterializationFingerprint.from_file_resolved
    event.file_id event.anime_title event.episode_number event.file_role
  if exists_by_fingerprint s fingerprint then
    (.ok (MaterializationResult.skipped fingerprint), s)
  else
    let anime_decision := decide_anime s event.anime_title event.matched_anime_id
    match execute_anime_decision s anime_decision with
    | (.error e, s1) => (.error e, s1)
    | (.ok (anime_id, is_new_anime), s1) =>
      let episode_decision :=
        decide_episode s1 anime_id event.episode_number event.matched_episode_id
      match execute_episode_decision s1 episode_decision with
      | (.error e, s2) => (.error e, s2)
      | (.ok (episode_id, is_new_episode), s2) =>
        let linkRes := link_file_if_applicable s2 episode_id event.file_id
          event.file_role
        let file_linked := linkRes.1
        let s3 := linkRes.2
        let outcome := determine_outcome is_new_anime is_new_episode file_linked
        let record : MaterializationRecord :=
          ⟨s3.fresh, fingerprint, .fileResolved, event.fingerprint,
           some anime_id, some episode_id, some event.file_id, outcome⟩
        let s4 := { s3 with records := s3.records ++ [record],
                            fresh := s3.fresh + 1 }
        (.ok ⟨fingerprint, some anime_id, some episode_id, some event.file_id,
              outcome, is_new_anime, is_new_episode⟩, s4)

end MaterializationService

-- ============================================================================
-- Event Bus (events/bus/event_bus.rs)
-- ============================================================================

/-- A type-erased event: the `TypeId` key plus an abstract payload. -/
structure BusEvent where
  typeId : Nat
  payload : String
deriving DecidableEq, Repr

/-- The observable behavior of one handler invocation: normal return or a
panic (which `catch_unwind` intercepts at the bus boundary). -/
inductive HandlerOutcome
| ok
| panicked (msg : String)
deriving DecidableEq, Repr

/-- A registered handler: the `TypeId` it was subscribed under together with
the wrapped closure, whose behavior is abstracted as a function from the
event to an outcome. -/
structure BusHandler where
  evType : Nat
  run : BusEvent → HandlerOutcome

/-- The bus: the handler registry (`HashMap<TypeId, Vec<EventHandler>>`,
modelled as one list in global registration order — the per-type `Vec` is
recovered by filtering) and the emission log (event type and handler count
per emission). -/
structure EventBus where
  handlers : List BusHandler
  event_log : List (Nat × Nat)

/-- `EventBus::new` -/
def EventBus.new : EventBus := ⟨[], []⟩

/-- `EventBus::subscribe`: push the wrapped handler onto the vector for its
type key. -/
def EventBus.subscribe (bus : EventBus) (evType : Nat)
    (run : BusEvent → HandlerOutcome) : EventBus :=
  { bus with handlers := bus.handlers ++ [⟨evType, run⟩] }

/-- The handlers registered for one event type, in subscription order. -/
def EventBus.handlersFor (bus : EventBus) (t : Nat) : List BusHandler :=
  bus.handlers.filter (fun h => decide (h.evType = t))

/-- One entry of the dispatch trace of an emission: the outcome of the
handler and whether a panic was caught and logged for it. -/
structure Invocation where
  outcome : HandlerOutcome
  panic_logged : Bool
deriving DecidableEq, Repr

/-- The dispatch of one handler inside `emit`: the call runs under
`catch_unwind`; a panic is converted into a logged error and the loop
continues with the next handler. -/
def dispatchOne (event : BusEvent) (h : BusHandler) : Invocation :=
  match h.run event with
  | .ok => ⟨.ok, false⟩
  | .panicked m => ⟨.panicked m, true⟩

/-- `EventBus::emit`: append the log entry, then invoke every handler
registered for the event type, in subscription order, synchronously; the
returned trace records one invocation per handler. `emit` is total: it
returns whatever the handlers do. -/
def EventBus.emit (bus : EventBus) (event : BusEvent) :
    EventBus × List Invocation :=
  let hs := bus.handlersFor event.typeId
  ({ bus with event_log := bus.event_log ++ [(event.typeId, hs.length)] },
   hs.map (fun h => dispatchOne event h))

-- ============================================================================
-- Theorems
-- ============================================================================

/-- Whether the number is a special label. -/
def ResolvedEpisodeNumber.isSpecialLabel : ResolvedEpisodeNumber → Bool
| .special _ => true
| .regular _ => false

/-- The confidence formula exactly as the claim states it, for comparison
with `calculate_confidence`: base 0.5, +0.20 work match, +0.15 part match,
+0.10 per field (title and number independently) sourced from the filename,
−0.30 short title, −0.10 special label, clamped to [0,1]. -/
def claimed_confidence (anime_title : String)
    (episode_number : ResolvedEpisodeNumber)
    (anime_matched episode_matched : Bool)
    (anime_source episode_source : ResolutionSource) : Int :=
  let s : Int := 50
    + (if anime_matched then 20 else 0)
    + (if episode_matched then 15 else 0)
    + (if anime_source = ResolutionSource.filename then 10 else 0)
    + (if episode_source = ResolutionSource.filename then 10 else 0)
    - (if anime_title.length < 3 then 30 else 0)
    - (if episode_number.isSpecialLabel then 10 else 0)
  max 0 (min s 100)

/-- The claimed formula amended to what the code computes: the bonus for a
filename-sourced number is 0.05, not 0.10 (the title bonus stays 0.10). -/
def amended_confidence (anime_title : String)
    (episode_number : ResolvedEpisodeNumber)
    (anime_matched episode_matched : Bool)
    (anime_source episode_source : ResolutionSource) : Int :=
  let s : Int := 50
    + (if anime_matched then 20 else 0)
    + (if episode_matched then 15 else 0)
    + (if anime_source = ResolutionSource.filename then 10 else 0)
    + (if episode_source = ResolutionSource.filename then 5 else 0)
    - (if anime_title.length < 3 then 30 else 0)
    - (if episode_number.isSpecialLabel then 10 else 0)
  max 0 (min s 100)

/-- C1, counterexample: with title "Anime", a regular number, no matches and
both fields sourced from the filename, the code computes 0.65 while the
claimed formula (+0.10 per filename-sourced field) demands 0.70. -/
theorem c1_counterexample :
    (calculate_confidence "Anime" (.regular 1) false false
      .filename .filename).score = 65 ∧
    claimed_confidence "Anime" (.regular 1) false false
      .filename .filename = 70 ∧
    (calculate_confidence "Anime" (.regular 1) false false
      .filename .filename).score ≠
      claimed_confidence "Anime" (.regular 1) false false
        .filename .filename := by
  refine ⟨?_, ?_, ?_⟩ <;> decide

/-- C1, amended: for every input, the computed confidence score equals a
base of 0.5, plus 0.20 for a matched work, plus 0.15 for a matched part,
plus 0.10 when the title is sourced from the filename, plus 0.05 when the
number is sourced from the filename, minus 0.30 for a title shorter than 3
characters, minus 0.10 for a special label, clamped to [0,1]. -/
theorem c1_confidence_formula (anime_title : String)
    (episode_number : ResolvedEpisodeNumber)
    (anime_matched episode_matched : Bool)
    (anime_source episode_source : ResolutionSource) :
    (calculate_confidence anime_title episode_number anime_matched
      episode_matched anime_source episode_source).score =
    amended_confidence anime_title episode_number anime_matched
      episode_matched anime_source episode_source := by
  unfold calculate_confidence amended_confidence ResolutionConfidence.new
  cases anime_matched <;> cases episode_matched <;>
    cases anime_source <;> cases episode_source <;>
      cases episode_number <;>
        by_cases h : anime_title.length < 3 <;>
          simp [h, ResolvedEpisodeNumber.isSpecialLabel]

/-- The fixtures for the threshold-boundary claim: a catalog holding the work
"AB" with a special part labelled "ova", a video file whose resolution scores
exactly 0.6 (matched work +0.20, matched part +0.15, filename title +0.10,
filename number +0.05, short title −0.30, special label −0.10), and a video
file whose resolution scores 0.55. -/
def c6_state : ResolutionState :=
  ⟨[⟨10, "AB - 01 OVA.mkv", .video⟩, ⟨11, "MyAnimeDir/Cool #07.mkv", .video⟩],
   [⟨1, "AB", [], none, none⟩],
   [⟨2, 1, .special "ova", none, 0⟩], [], []⟩

/-- C6: the confidence gate is inclusive at the threshold constant 0.6: a
score of exactly 0.6 meets the threshold and the resolution proceeds to a
success, while a score below it (0.59, and the reachable 0.55 of the second
fixture) fails the gate and produces a `LowConfidence` structured failure. -/
theorem c6_threshold_boundary :
    ResolutionConfidence.THRESHOLD = 60 ∧
    (ResolutionConfidence.new 60).meets_threshold = true ∧
    (ResolutionConfidence.new 59).meets_threshold = false ∧
    resolve_file_internal c6_state ⟨10, "AB - 01 OVA.mkv", .video⟩ =
      .success ⟨10, "AB - 01 OVA.mkv", .video,
        ⟨"AB", [], some 1, .filename⟩,
        ⟨.special "OVA", none, some 2, .filename⟩, ⟨60⟩⟩ ∧
    (⟨(60 : Int)⟩ : ResolutionConfidence).meets_threshold = true ∧
    resolve_file_internal c6_state ⟨11, "MyAnimeDir/Cool #07.mkv", .video⟩ =
      .failure ⟨11, "MyAnimeDir/Cool #07.mkv", .lowConfidence,
        "Confidence score is below threshold"⟩ := by
  refine ⟨?_, ?_, ?_, ?_, ?_, ?_⟩ <;> decide

/-- C7: the special-marker patterns are checked before any numeric pattern,
so whenever one of them matches the file stem the parse yields a Special
label (never a numeric reading); in particular "Anime OVA.mkv" parses to
Special "OVA" sourced from the filename. -/
theorem c7_specials_before_numeric (path stem : String)
    (hstem : pathFileStem path = some stem)
    (hsp : (specialPat ['O', 'V', 'A'] stem.toList).isSome = true ∨
           (specialPat ['O', 'A', 'D'] stem.toList).isSome = true ∨
           (specialPat ['S', 'p', 'e', 'c', 'i', 'a', 'l'] stem.toList).isSome = true ∨
           (specialPat ['M', 'o', 'v', 'i', 'e'] stem.toList).isSome = true) :
    (∃ label, parse_episode_number path =
      some (ResolvedEpisodeNumber.special label, ResolutionSource.filename)) ∧
    parse_episode_number "Anime OVA.mkv" =
      some (ResolvedEpisodeNumber.special "OVA", ResolutionSource.filename) := by
  constructor
  · have hfs : (firstSpecial stem.toList).isSome = true := by
      unfold firstSpecial
      rcases hsp with h | h | h | h <;>
        cases hO : specialPat ['O', 'V', 'A'] stem.toList <;>
          cases hA : specialPat ['O', 'A', 'D'] stem.toList <;>
            cases hS : specialPat ['S', 'p', 'e', 'c', 'i', 'a', 'l'] stem.toList <;>
              cases hM : specialPat ['M', 'o', 'v', 'i', 'e'] stem.toList <;>
                simp_all
    cases hl : firstSpecial stem.toList with
    | none => rw [hl] at hfs; simp at hfs
    | some l =>
      refine ⟨strTrim (String.mk l), ?_⟩
      unfold parse_episode_number
      rw [hstem]
      have hl2 : firstSpecial stem.data = some l := hl
      simp [hl2]
  · decide

/-- Closed witness for the C7 theorem at the spec example. -/
theorem c7_witness :
    (∃ label, parse_episode_number "Anime OVA.mkv" =
      some (ResolvedEpisodeNumber.special label, ResolutionSource.filename)) ∧
    parse_episode_number "Anime OVA.mkv" =
      some (ResolvedEpisodeNumber.special "OVA", ResolutionSource.filename) :=
  c7_specials_before_numeric "Anime OVA.mkv" "Anime OVA" (by decide)
    (Or.inl (by decide))

/-- C8: title parsing tries the ordered filename patterns and the first
successful pattern wins, with no backtracking to a later pattern; when no
filename pattern matches, the immediate parent folder name is the fallback,
and that fallback is rejected — yielding no title — exactly when the folder
name is shorter than 3 characters or starts with a dot. -/
theorem c8_title_cascade (path stem folder : String) (t : List Char) :
    (pathFileStem path = some stem → titlePatBracket stem.toList = some t →
      parse_anime_title path =
        some (strTrim (String.mk t), ResolutionSource.filename)) ∧
    (pathFileStem path = some stem → titlePatBracket stem.toList = none →
      titlePatDash stem.toList = some t →
      parse_anime_title path =
        some (strTrim (String.mk t), ResolutionSource.filename)) ∧
    (pathFileStem path = some stem → titlePatBracket stem.toList = none →
      titlePatDash stem.toList = none → titlePatSE stem.toList = some t →
      parse_anime_title path =
        some (strTrim (String.mk t), ResolutionSource.filename)) ∧
    (pathFileStem path = some stem → titlePatBracket stem.toList = none →
      titlePatDash stem.toList = none → titlePatSE stem.toList = none →
      titlePatEpisode stem.toList = some t →
      parse_anime_title path =
        some (strTrim (String.mk t), ResolutionSource.filename)) ∧
    (pathFileStem path = some stem → titlePatBracket stem.toList = none →
      titlePatDash stem.toList = none → titlePatSE stem.toList = none →
      titlePatEpisode stem.toList = none →
      pathParentFolder path = some folder →
      (parse_anime_title path =
          some (folder, ResolutionSource.folderName) ↔
        (3 ≤ folder.length ∧ litAt ['.'] folder.toList = false))) ∧
    (pathFileStem path = some stem → titlePatBracket stem.toList = none →
      titlePatDash stem.toList = none → titlePatSE stem.toList = none →
      titlePatEpisode stem.toList = none →
      pathParentFolder path = some folder →
      ¬(3 ≤ folder.length ∧ litAt ['.'] folder.toList = false) →
      parse_anime_title path = none) ∧
    (pathFileStem path = some stem → titlePatBracket stem.toList = none →
      titlePatDash stem.toList = none → titlePatSE stem.toList = none →
      titlePatEpisode stem.toList = none →
      pathParentFolder path = none →
      parse_anime_title path = none) := by
  refine ⟨?_, ?_, ?_, ?_, ?_, ?_, ?_⟩
  · intro hstem hb
    unfold parse_anime_title
    rw [hstem]
    have hb2 : titlePatBracket stem.data = some t := hb
    simp [hb2]
  · intro hstem hb hd
    unfold parse_anime_title
    rw [hstem]
    have hb2 : titlePatBracket stem.data = none := hb
    have hd2 : titlePatDash stem.data = some t := hd
    simp [hb2, hd2]
  · intro hstem hb hd hs
    unfold parse_anime_title
    rw [hstem]
    have hb2 : titlePatBracket stem.data = none := hb
    have hd2 : titlePatDash stem.data = none := hd
    have hs2 : titlePatSE stem.data = some t := hs
    simp [hb2, hd2, hs2]
  · intro hstem hb hd hs he
    unfold parse_anime_title
    rw [hstem]
    have hb2 : titlePatBracket stem.data = none := hb
    have hd2 : titlePatDash stem.data = none := hd
    have hs2 : titlePatSE stem.data = none := hs
    have he2 : titlePatEpisode stem.data = some t := he
    simp [hb2, hd2, hs2, he2]
  · intro hstem hb hd hs he hfolder
    unfold parse_anime_title
    rw [hstem]
    have hb2 : titlePatBracket stem.data = none := hb
    have hd2 : titlePatDash stem.data = none := hd
    have hs2 : titlePatSE stem.data = none := hs
    have he2 : titlePatEpisode stem.data = none := he
    rw [hfolder]
    by_cases h3 : 3 ≤ folder.length <;>
      by_cases hdot : litAt ['.'] folder.toList <;>
        simp [hb2, hd2, hs2, he2, h3, hdot]
  · intro hstem hb hd hs he hfolder hrej
    unfold parse_anime_title
    rw [hstem]
    have hb2 : titlePatBracket stem.data = none := hb
    have hd2 : titlePatDash stem.data = none := hd
    have hs2 : titlePatSE stem.data = none := hs
    have he2 : titlePatEpisode stem.data = none := he
    rw [hfolder]
    by_cases h3 : 3 ≤ folder.length
    · by_cases hdot : litAt ['.'] folder.toList = true
      · have hdot2 : litAt ['.'] folder.data = true := hdot
        simp [hb2, hd2, hs2, he2, h3, hdot2]
      · exact absurd ⟨h3, by simpa using hdot⟩ hrej
    · simp [hb2, hd2, hs2, he2, h3]
  · intro hstem hb hd hs he hfolder
    unfold parse_anime_title
    rw [hstem]
    have hb2 : titlePatBracket stem.data = none := hb
    have hd2 : titlePatDash stem.data = none := hd
    have hs2 : titlePatSE stem.data = none := hs
    have he2 : titlePatEpisode stem.data = none := he
    rw [hfolder]
    simp [hb2, hd2, hs2, he2]

/-- Closed witness for the C8 theorem: each pattern tier and both sides of
the folder-fallback boundary, exercised at concrete paths. -/
theorem c8_witness :
    parse_anime_title "[Sub] Steins Gate - 01 [1080p].mkv" =
      some ("Steins Gate", ResolutionSource.filename) ∧
    parse_anime_title "Attack on Titan - 01.mkv" =
      some ("Attack on Titan", ResolutionSource.filename) ∧
    parse_anime_title "MyAnimeDir/Cool #07.mkv" =
      some ("MyAnimeDir", ResolutionSource.folderName) ∧
    parse_anime_title "ab/Cool #07.mkv" = none ∧
    parse_anime_title ".hidden/Cool #07.mkv" = none := by
  refine ⟨?_, ?_, ?_, ?_, ?_⟩
  · exact ((c8_title_cascade "[Sub] Steins Gate - 01 [1080p].mkv"
      "[Sub] Steins Gate - 01 [1080p]" "" "Steins Gate".toList).1
        (by decide) (by decide)).trans (by decide)
  · exact ((c8_title_cascade "Attack on Titan - 01.mkv" "Attack on Titan - 01"
      "" "Attack on Titan".toList).2.1 (by decide) (by decide)
        (by decide)).trans (by decide)
  · exact ((c8_title_cascade "MyAnimeDir/Cool #07.mkv" "Cool #07"
      "MyAnimeDir" []).2.2.2.2.1 (by decide) (by decide) (by decide)
        (by decide) (by decide) (by decide)).mpr (by decide)
  · exact (c8_title_cascade "ab/Cool #07.mkv" "Cool #07"
      "ab" []).2.2.2.2.2.1 (by decide) (by decide) (by decide)
        (by decide) (by decide) (by decide) (by decide)
  · exact (c8_title_cascade ".hidden/Cool #07.mkv" "Cool #07"
      ".hidden" []).2.2.2.2.2.1 (by decide) (by decide) (by decide)
        (by decide) (by decide) (by decide) (by decide)

/-- `resolve_file_internal` reads only the file argument and the anime and
episode repositories: it is unaffected by the idempotency set and the event
log. -/
theorem resolve_file_internal_congr (s s2 : ResolutionState) (f : File)
    (h1 : s.animes = s2.animes) (h2 : s.episodes = s2.episodes) :
    resolve_file_internal s f = resolve_file_internal s2 f := by
  unfold resolve_file_internal try_match_anime try_match_episode list_by_anime
  rw [h1, h2]

/-- `nextBatchState` touches only the idempotency set and the event log. -/
theorem nextBatchState_repos (st : ResolutionState) (f : File) :
    (nextBatchState st f).files = st.files ∧
    (nextBatchState st f).animes = st.animes ∧
    (nextBatchState st f).episodes = st.episodes := by
  unfold nextBatchState
  by_cases hmem : compute_fingerprint_from_result
      (resolve_file_internal st f) ∈ st.resolved_fingerprints <;>
    simp [hmem]

/-- The loop step of `resolve_batch` on a fresh failing file: the failure is
fingerprinted, marked and counted as failed. -/
theorem batchStep_fail (acc : BatchAcc) (f : File) (fl : ResolutionFailure)
    (hfl : resolve_file_internal acc.st f = .failure fl)
    (hmem : fl.fingerprint ∉ acc.st.resolved_fingerprints) :
    batchStep acc f =
      { acc with
        st := nextBatchState acc.st f,
        results := acc.results ++ [.failure fl],
        failed_count := acc.failed_count + 1 } := by
  unfold batchStep
  rw [hfl]
  simp [compute_fingerprint_from_result, hmem]

/-- The loop step of `resolve_batch` on a file whose fingerprint is already
in the idempotency set: counted as skipped, nothing else changes. -/
theorem batchStep_skip (acc : BatchAcc) (f : File)
    (hmem : compute_fingerprint_from_result (resolve_file_internal acc.st f) ∈
      acc.st.resolved_fingerprints) :
    batchStep acc f =
      { acc with
        st := nextBatchState acc.st f,
        skipped_count := acc.skipped_count + 1 } := by
  unfold batchStep
  simp [hmem]

/-- The state update of a fresh (non-skipped) loop iteration. -/
theorem nextBatchState_fresh (st : ResolutionState) (f : File)
    (hmem : compute_fingerprint_from_result (resolve_file_internal st f) ∉
      st.resolved_fingerprints) :
    nextBatchState st f =
      { st with
        resolved_fingerprints := st.resolved_fingerprints ++
          [compute_fingerprint_from_result (resolve_file_internal st f)],
        events := st.events ++
          [resolutionEventOf (resolve_file_internal st f)] } := by
  unfold nextBatchState
  simp [hmem]

/-- C4: once a fingerprint is in the idempotency set, a `resolve_file` call
whose internal result carries that fingerprint returns the `Skipped` outcome
and appends exactly one `ResolutionSkipped` event — no `FileResolved` and no
`ResolutionFailed` event is emitted again and the set is unchanged; moreover
the set only ever grows, so a fingerprint once entered stays entered across
later calls. -/
theorem c4_no_reemission :
    (∀ (s : ResolutionState) (file_id : Uuid) (f : File),
      get_file_by_id s file_id = some f →
      compute_fingerprint_from_result (resolve_file_internal s f) ∈
        s.resolved_fingerprints →
      resolve_file s file_id =
        (.ok (.skipped f.id
            (compute_fingerprint_from_result (resolve_file_internal s f))),
         { s with events := s.events ++
            [.resolutionSkipped f.id f.caminho_absoluto
              (compute_fingerprint_from_result (resolve_file_internal s f))
              "already_resolved"] })) ∧
    (∀ (s : ResolutionState) (file_id : Uuid),
      s.resolved_fingerprints ⊆
        ((resolve_file s file_id).2).resolved_fingerprints) := by
  constructor
  · intro s file_id f hf hmem
    unfold resolve_file
    rw [hf]
    simp [hmem]
  · intro s file_id
    unfold resolve_file
    cases hf : get_file_by_id s file_id with
    | none => simp
    | some f =>
      by_cases hmem : compute_fingerprint_from_result
          (resolve_file_internal s f) ∈ s.resolved_fingerprints
      · simp [hmem]
      · simp [hmem]

/-- The fixtures for the C4 witness: one resolvable video file and the state
reached after its first resolution. -/
def c4_state : ResolutionState :=
  ⟨[⟨21, "[Sub] Steins Gate - 01 [1080p].mkv", .video⟩], [], [], [], []⟩

/-- Closed witness for the C4 theorem: after the first resolution of the
fixture file has entered its fingerprint, a second call returns `Skipped`
with exactly one `ResolutionSkipped` event. -/
theorem c4_witness :
    resolve_file (resolve_file c4_state 21).2 21 =
      (.ok (.skipped 21 (ResolutionFingerprint.success 21 "steins gate" "1"
        "video")),
       { (resolve_file c4_state 21).2 with
          events := (resolve_file c4_state 21).2.events ++
            [.resolutionSkipped 21 "[Sub] Steins Gate - 01 [1080p].mkv"
              (ResolutionFingerprint.success 21 "steins gate" "1" "video")
              "already_resolved"] }) := by
  have h := c4_no_reemission.1 (resolve_file c4_state 21).2 21
    ⟨21, "[Sub] Steins Gate - 01 [1080p].mkv", .video⟩ (by decide) (by decide)
  rw [h]
  rfl

/-- C10: a structured resolution failure is fingerprinted over only the file
id and the failure reason; the first `resolve_file` producing it enters that
fingerprint into the idempotency set and emits `ResolutionFailed`, and the
immediately following call on the same file returns `Skipped` and emits
`ResolutionSkipped` instead of a second `ResolutionFailed`; in batch mode
the repeat is counted as skipped, not failed. -/
theorem c10_failures_enter_idempotency :
    (∀ failure : ResolutionFailure,
      failure.fingerprint =
        ResolutionFingerprint.failure failure.file_id
          failure.reason.toOutput) ∧
    (∀ (s : ResolutionState) (file_id : Uuid) (f : File)
        (fl : ResolutionFailure),
      get_file_by_id s file_id = some f →
      resolve_file_internal s f = .failure fl →
      fl.fingerprint ∉ s.resolved_fingerprints →
      (resolve_file s file_id).1 = .ok (.processed (.failure fl)) ∧
      (resolve_file s file_id).2.resolved_fingerprints =
        s.resolved_fingerprints ++ [fl.fingerprint] ∧
      (resolve_file s file_id).2.events = s.events ++
        [.resolutionFailed fl.file_id fl.file_path fl.reason.toOutput
          fl.description fl.fingerprint] ∧
      (resolve_file (resolve_file s file_id).2 file_id).1 =
        .ok (.skipped f.id fl.fingerprint) ∧
      (resolve_file (resolve_file s file_id).2 file_id).2.events =
        (resolve_file s file_id).2.events ++
          [.resolutionSkipped f.id f.caminho_absoluto fl.fingerprint
            "already_resolved"]) ∧
    (∀ (s : ResolutionState) (f : File) (fl : ResolutionFailure),
      resolve_file_internal s f = .failure fl →
      fl.fingerprint ∉ s.resolved_fingerprints →
      (resolve_batch s [f, f]).1.failed_count = 1 ∧
      (resolve_batch s [f, f]).1.skipped_count = 1) := by
  refine ⟨fun failure => rfl, ?_, ?_⟩
  · intro s file_id f fl hf hfl hmem
    have hstep : resolve_file s file_id =
        (.ok (.processed (.failure fl)),
         { s with
            resolved_fingerprints := s.resolved_fingerprints ++
              [fl.fingerprint],
            events := s.events ++ [resolutionEventOf (.failure fl)] }) := by
      unfold resolve_file
      rw [hf]
      simp [hfl, compute_fingerprint_from_result, hmem]
    rw [hstep]
    refine ⟨rfl, rfl, rfl, ?_, ?_⟩
    · have hf2 : get_file_by_id
          { s with
            resolved_fingerprints := s.resolved_fingerprints ++
              [fl.fingerprint],
            events := s.events ++ [resolutionEventOf (.failure fl)] }
          file_id = some f := hf
      have hfl2 : resolve_file_internal
          { s with
            resolved_fingerprints := s.resolved_fingerprints ++
              [fl.fingerprint],
            events := s.events ++ [resolutionEventOf (.failure fl)] } f =
          .failure fl :=
        (resolve_file_internal_congr _ s f rfl rfl).trans hfl
      unfold resolve_file
      rw [hf2]
      simp [hfl2, compute_fingerprint_from_result]
    · have hf2 : get_file_by_id
          { s with
            resolved_fingerprints := s.resolved_fingerprints ++
              [fl.fingerprint],
            events := s.events ++ [resolutionEventOf (.failure fl)] }
          file_id = some f := hf
      have hfl2 : resolve_file_internal
          { s with
            resolved_fingerprints := s.resolved_fingerprints ++
              [fl.fingerprint],
            events := s.events ++ [resolutionEventOf (.failure fl)] } f =
          .failure fl :=
        (resolve_file_internal_congr _ s f rfl rfl).trans hfl
      unfold resolve_file
      rw [hf2]
      simp [hfl2, compute_fingerprint_from_result]
  · intro s f fl hfl hmem
    have h1 : batchStep ⟨s, [], 0, 0, 0, []⟩ f =
        ⟨nextBatchState s f, [.failure fl], 0, 1, 0, []⟩ := by
      rw [batchStep_fail ⟨s, [], 0, 0, 0, []⟩ f fl hfl hmem]
      rfl
    have hfl2 : resolve_file_internal (nextBatchState s f) f = .failure fl :=
      (resolve_file_internal_congr _ s f (nextBatchState_repos s f).2.1
        (nextBatchState_repos s f).2.2).trans hfl
    have hmem2 : compute_fingerprint_from_result
        (resolve_file_internal (nextBatchState s f) f) ∈
        (nextBatchState s f).resolved_fingerprints := by
      rw [hfl2]
      rw [nextBatchState_fresh s f (by
        rw [hfl]; exact hmem)]
      simp [compute_fingerprint_from_result, hfl]
    have h2 : batchStep ⟨nextBatchState s f, [.failure fl], 0, 1, 0, []⟩ f =
        ⟨nextBatchState (nextBatchState s f) f, [.failure fl], 0, 1, 1, []⟩ := by
      rw [batchStep_skip ⟨nextBatchState s f, [.failure fl], 0, 1, 0, []⟩ f
        hmem2]
    unfold resolve_batch
    simp [List.foldl, h1, h2]

/-- The fixture for the C10 witness: a file of unsupported kind, resolved
twice singly and once as the batch `[f, f]`. -/
def c10_state : ResolutionState :=
  ⟨[⟨31, "notes.bin", .outro⟩], [], [], [], []⟩

/-- Closed witness for the C10 theorem: the `UnsupportedFileType` failure of
the fixture is fingerprinted over (file id, reason), recorded, then skipped
on the second single call, and the batch `[f, f]` counts one failed and one
skipped. -/
theorem c10_witness :
    ResolutionFailure.fingerprint
        ⟨31, "notes.bin", .unsupportedFileType,
          "File type outro is not supported for resolution"⟩ =
      ResolutionFingerprint.failure 31 "unsupported_file_type" ∧
    (resolve_file c10_state 31).1 =
      .ok (.processed (.failure ⟨31, "notes.bin", .unsupportedFileType,
        "File type outro is not supported for resolution"⟩)) ∧
    (resolve_file (resolve_file c10_state 31).2 31).1 =
      .ok (.skipped 31 (ResolutionFingerprint.failure 31
        "unsupported_file_type")) ∧
    (resolve_batch c10_state [⟨31, "notes.bin", .outro⟩,
      ⟨31, "notes.bin", .outro⟩]).1.failed_count = 1 ∧
    (resolve_batch c10_state [⟨31, "notes.bin", .outro⟩,
      ⟨31, "notes.bin", .outro⟩]).1.skipped_count = 1 := by
  have h2 := c10_failures_enter_idempotency.2.1 c10_state 31
    ⟨31, "notes.bin", .outro⟩
    ⟨31, "notes.bin", .unsupportedFileType,
      "File type outro is not supported for resolution"⟩
    (by decide) (by decide) (by decide)
  have h3 := c10_failures_enter_idempotency.2.2 c10_state
    ⟨31, "notes.bin", .outro⟩
    ⟨31, "notes.bin", .unsupportedFileType,
      "File type outro is not supported for resolution"⟩
    (by decide) (by decide)
  exact ⟨c10_failures_enter_idempotency.1 _, h2.1, h2.2.2.2.1, h3.1, h3.2⟩

/-- C9: one `emit` invokes every handler registered for the emitted type
exactly once each, in registration order, before returning (the trace below
is the synchronous dispatch loop); a panicking handler is caught and logged
at the bus boundary, later handlers for the same emission still run, and the
panic does not propagate to the emitter (`emit` still returns, with the
registry intact and the emission logged); `subscribe` appends to the
per-type handler list, fixing registration order. -/
theorem c9_bus_dispatch :
    (∀ (bus : EventBus) (event : BusEvent),
      ((bus.emit event).2).length = (bus.handlersFor event.typeId).length ∧
      (∀ (i : Nat) (h : BusHandler),
        (bus.handlersFor event.typeId)[i]? = some h →
        ((bus.emit event).2)[i]? = some (dispatchOne event h)) ∧
      (∀ (i : Nat) (h : BusHandler) (m : String),
        (bus.handlersFor event.typeId)[i]? = some h →
        h.run event = .panicked m →
        ((bus.emit event).2)[i]? = some ⟨.panicked m, true⟩) ∧
      ((bus.emit event).1).handlers = bus.handlers ∧
      ((bus.emit event).1).event_log = bus.event_log ++
        [(event.typeId, (bus.handlersFor event.typeId).length)]) ∧
    (∀ (bus : EventBus) (t : Nat) (run : BusEvent → HandlerOutcome),
      (bus.subscribe t run).handlersFor t =
        bus.handlersFor t ++ [⟨t, run⟩]) := by
  constructor
  · intro bus event
    refine ⟨?_, ?_, ?_, rfl, rfl⟩
    · simp [EventBus.emit]
    · intro i h hi
      simp [EventBus.emit, hi]
    · intro i h m hi hrun
      simp [EventBus.emit, hi, dispatchOne, hrun]
  · intro bus t run
    unfold EventBus.subscribe EventBus.handlersFor
    simp [List.filter_append]

/-- Two handlers for type 1 (the first panics) and one for type 2. -/
def c9_handler_panics : BusHandler := ⟨1, fun _ => .panicked "boom"⟩

/-- A well-behaved handler for type 1. -/
def c9_handler_ok : BusHandler := ⟨1, fun _ => .ok⟩

/-- The fixture bus for the C9 witness. -/
def c9_bus : EventBus :=
  ⟨[c9_handler_panics, c9_handler_ok, ⟨2, fun _ => .ok⟩], []⟩

/-- Closed witness for the C9 theorem: emitting a type-1 event runs both
type-1 handlers in order; the first panics and is logged, the second still
runs normally. -/
theorem c9_witness :
    ((c9_bus.emit ⟨1, "payload"⟩).2).length = 2 ∧
    ((c9_bus.emit ⟨1, "payload"⟩).2)[0]? =
      some ⟨.panicked "boom", true⟩ ∧
    ((c9_bus.emit ⟨1, "payload"⟩).2)[1]? = some ⟨.ok, false⟩ := by
  refine ⟨((c9_bus_dispatch.1 c9_bus ⟨1, "payload"⟩).1).trans rfl, ?_, ?_⟩
  · exact (c9_bus_dispatch.1 c9_bus ⟨1, "payload"⟩).2.2.1 0
      c9_handler_panics "boom" rfl rfl
  · exact (c9_bus_dispatch.1 c9_bus ⟨1, "payload"⟩).2.1 1 c9_handler_ok rfl

namespace MaterializationService

/-- The anime step creates at most one anime and touches nothing else. -/
theorem execute_anime_decision_state (s : MatState)
    (d : MaterializationDecision) :
    (execute_anime_decision s d).2.animes.length ≤ s.animes.length + 1 ∧
    (execute_anime_decision s d).2.episodes = s.episodes ∧
    (execute_anime_decision s d).2.files = s.files ∧
    (execute_anime_decision s d).2.records = s.records ∧
    (execute_anime_decision s d).2.episode_links = s.episode_links := by
  unfold execute_anime_decision
  cases d <;> simp [Nat.le_succ]
  case createAnime title alts =>
    cases validate_anime ⟨s.fresh, title, alts, none, none⟩ <;>
      simp [Nat.le_succ]

/-- The anime step leaves the state untouched when it errors. -/
theorem execute_anime_decision_error (s : MatState)
    (d : MaterializationDecision) (err : AppError) (s1 : MatState)
    (h : execute_anime_decision s d = (.error err, s1)) : s1 = s := by
  unfold execute_anime_decision at h
  cases d <;> simp_all
  case createAnime title alts =>
    cases hv : validate_anime ⟨s.fresh, title, alts, none, none⟩ <;>
      simp_all [hv]

/-- The episode step creates at most one episode and touches nothing else. -/
theorem execute_episode_decision_state (s : MatState)
    (d : MaterializationDecision) :
    (execute_episode_decision s d).2.episodes.length ≤ s.episodes.length + 1 ∧
    (execute_episode_decision s d).2.animes = s.animes ∧
    (execute_episode_decision s d).2.files = s.files ∧
    (execute_episode_decision s d).2.records = s.records ∧
    (execute_episode_decision s d).2.episode_links = s.episode_links := by
  unfold execute_episode_decision
  cases d <;> simp [Nat.le_succ]
  case createEpisode anime_id number =>
    cases number <;> simp [validate_episode, Nat.le_succ]

/-- The episode step leaves the state untouched when it errors. -/
theorem execute_episode_decision_error (s : MatState)
    (d : MaterializationDecision) (err : AppError) (s1 : MatState)
    (h : execute_episode_decision s d = (.error err, s1)) : s1 = s := by
  unfold execute_episode_decision at h
  cases d <;> simp_all
  case createEpisode anime_id number =>
    cases number <;> simp [validate_episode] at h

/-- Linking adds at most one link and touches nothing else. -/
theorem link_file_if_applicable_state (s : MatState)
    (episode_id file_id : Uuid) (file_role : String) :
    (link_file_if_applicable s episode_id file_id file_role).2.episode_links.length ≤
      s.episode_links.length + 1 ∧
    (link_file_if_applicable s episode_id file_id file_role).2.animes = s.animes ∧
    (link_file_if_applicable s episode_id file_id file_role).2.episodes = s.episodes ∧
    (link_file_if_applicable s episode_id file_id file_role).2.files = s.files ∧
    (link_file_if_applicable s episode_id file_id file_role).2.records = s.records := by
  unfold link_file_if_applicable
  by_cases hrole : file_role ≠ "video" ∧ file_role ≠ "subtitle"
  · simp [hrole, Nat.le_succ]
  · cases hfile : file_by_id s file_id <;> simp [hrole, hfile, Nat.le_succ]

/-- The pipeline never produces a `Skipped` outcome. -/
theorem determine_outcome_ne_skipped (a b c : Bool) :
    determine_outcome a b c ≠ .skipped := by
  unfold determine_outcome
  cases a <;> cases b <;> cases c <;> simp

/-- Structural characterization of `materialize_file_resolved`: the call
creates at most one anime, one episode and one link; an error saves nothing;
a `Skipped` result changes nothing (the record it relies on pre-exists); a
non-skipped success appends exactly one record keyed by the fingerprint of
the event. -/
theorem materialize_file_resolved_spec (s : MatState) (event : FileResolved) :
    ((materialize_file_resolved s event).2.animes.length ≤
        s.animes.length + 1 ∧
      (materialize_file_resolved s event).2.episodes.length ≤
        s.episodes.length + 1 ∧
      (materialize_file_resolved s event).2.episode_links.length ≤
        s.episode_links.length + 1) ∧
    (∀ err, (materialize_file_resolved s event).1 = .error err →
      (materialize_file_resolved s event).2.records = s.records) ∧
    (∀ res, (materialize_file_resolved s event).1 = .ok res →
      res.outcome = .skipped →
      (materialize_file_resolved s event).2 = s ∧
      exists_by_fingerprint s (MaterializationFingerprint.from_file_resolved
        event.file_id event.anime_title event.episode_number
        event.file_role) = true) ∧
    (∀ res, (materialize_file_resolved s event).1 = .ok res →
      res.outcome ≠ .skipped →
      ∃ r, (materialize_file_resolved s event).2.records =
          s.records ++ [r] ∧
        r.fingerprint = MaterializationFingerprint.from_file_resolved
          event.file_id event.anime_title event.episode_number
          event.file_role) := by
  unfold materialize_file_resolved
  by_cases hex : exists_by_fingerprint s
      (MaterializationFingerprint.from_file_resolved event.file_id
        event.anime_title event.episode_number event.file_role) = true
  · rw [if_pos hex]
    refine ⟨⟨Nat.le_succ _, Nat.le_succ _, Nat.le_succ _⟩, ?_, ?_, ?_⟩
    · intro err h
      simp at h
    · intro res h hsk
      exact ⟨rfl, hex⟩
    · intro res h hns
      simp only [Except.ok.injEq] at h
      rw [← h] at hns
      simp [MaterializationResult.skipped] at hns
  · rw [if_neg hex]
    rcases hA : execute_anime_decision s
        (decide_anime s event.anime_title event.matched_anime_id) with
      ⟨ea, sA⟩
    have hA1 := execute_anime_decision_state s
      (decide_anime s event.anime_title event.matched_anime_id)
    rw [hA] at hA1
    cases ea with
    | error e =>
      have hsA : sA = s := execute_anime_decision_error _ _ _ _ hA
      simp only [hA]
      refine ⟨⟨?_, ?_, ?_⟩, ?_, ?_, ?_⟩
      · show sA.animes.length ≤ s.animes.length + 1
        rw [hsA]
        exact Nat.le_succ _
      · show sA.episodes.length ≤ s.episodes.length + 1
        rw [hsA]
        exact Nat.le_succ _
      · show sA.episode_links.length ≤ s.episode_links.length + 1
        rw [hsA]
        exact Nat.le_succ _
      · intro err h
        show sA.records = s.records
        rw [hsA]
      · intro res h
        simp at h
      · intro res h
        simp at h
    | ok aid =>
      rcases aid with ⟨anime_id, is_new_anime⟩
      rcases hE : execute_episode_decision sA
          (decide_episode sA anime_id event.episode_number
            event.matched_episode_id) with ⟨ee, sE⟩
      have hE1 := execute_episode_decision_state sA
        (decide_episode sA anime_id event.episode_number
          event.matched_episode_id)
      rw [hE] at hE1
      cases ee with
      | error e =>
        have hsE : sE = sA := execute_episode_decision_error _ _ _ _ hE
        simp only [hA, hE]
        refine ⟨⟨?_, ?_, ?_⟩, ?_, ?_, ?_⟩
        · show sE.animes.length ≤ s.animes.length + 1
          rw [hsE]
          exact hA1.1
        · show sE.episodes.length ≤ s.episodes.length + 1
          rw [hsE]
          have h2 : sA.episodes = s.episodes := hA1.2.1
          rw [h2]
          exact Nat.le_succ _
        · show sE.episode_links.length ≤ s.episode_links.length + 1
          rw [hsE]
          have h2 : sA.episode_links = s.episode_links := hA1.2.2.2.2
          rw [h2]
          exact Nat.le_succ _
        · intro err h
          show sE.records = s.records
          rw [hsE]
          exact hA1.2.2.2.1
        · intro res h
          simp at h
        · intro res h
          simp at h
      | ok eid =>
        rcases eid with ⟨episode_id, is_new_episode⟩
        have hL1 := link_file_if_applicable_state sE episode_id
          event.file_id event.file_role
        simp only [hA, hE]
        refine ⟨⟨?_, ?_, ?_⟩, ?_, ?_, ?_⟩
        · show (link_file_if_applicable sE episode_id event.file_id
              event.file_role).2.animes.length ≤ s.animes.length + 1
          rw [hL1.2.1, hE1.2.1]
          exact hA1.1
        · show (link_file_if_applicable sE episode_id event.file_id
              event.file_role).2.episodes.length ≤ s.episodes.length + 1
          rw [hL1.2.2.1]
          have h2 : sA.episodes = s.episodes := hA1.2.1
          exact hE1.1.trans (Nat.succ_le_succ (le_of_eq (by rw [h2])))
        · show (link_file_if_applicable sE episode_id event.file_id
              event.file_role).2.episode_links.length ≤
            s.episode_links.length + 1
          have h2 : sE.episode_links = s.episode_links := by
            rw [hE1.2.2.2.2, hA1.2.2.2.2]
          exact hL1.1.trans (Nat.succ_le_succ (le_of_eq (by rw [h2])))
        · intro err h
          simp at h
        · intro res h hsk
          simp only [Except.ok.injEq] at h
          rw [← h] at hsk
          exact absurd hsk (determine_outcome_ne_skipped _ _ _)
        · intro res h hns
          refine ⟨⟨(link_file_if_applicable sE episode_id event.file_id
                event.file_role).2.fresh,
              MaterializationFingerprint.from_file_resolved event.file_id
                event.anime_title event.episode_number event.file_role,
              .fileResolved, event.fingerprint, some anime_id,
              some episode_id, some event.file_id,
              determine_outcome is_new_anime is_new_episode
                (link_file_if_applicable sE episode_id event.file_id
                  event.file_role).1⟩, ?_, rfl⟩
          show (link_file_if_applicable sE episode_id event.file_id
              event.file_role).2.records ++ _ = s.records ++ _
          rw [hL1.2.2.2.2, hE1.2.2.2.1, hA1.2.2.2.1]

/-- When a record with the fingerprint of the event exists, materialization
returns `Skipped` and changes nothing. -/
theorem materialize_skip (s : MatState) (event : FileResolved)
    (hex : exists_by_fingerprint s
      (MaterializationFingerprint.from_file_resolved event.file_id
        event.anime_title event.episode_number event.file_role) = true) :
    materialize_file_resolved s event =
      (.ok (MaterializationResult.skipped
        (MaterializationFingerprint.from_file_resolved event.file_id
          event.anime_title event.episode_number event.file_role)), s) := by
  unfold materialize_file_resolved
  rw [if_pos hex]

end MaterializationService

/-- C2: materialization is idempotent under replay. A call on a FileResolved
event creates at most one work, at most one part and at most one file link;
and when that call returns successfully (having persisted its record when it
did any work), calling again with the same event returns the `Skipped`
outcome with the state unchanged — no save, create or link touches any
entity on the replay. -/
theorem c2_materialization_idempotent (s : MatState) (event : FileResolved)
    (res : MaterializationResult)
    (h : (MaterializationService.materialize_file_resolved s event).1 =
      .ok res) :
    ((MaterializationService.materialize_file_resolved s event).2.animes.length ≤
        s.animes.length + 1 ∧
      (MaterializationService.materialize_file_resolved s event).2.episodes.length ≤
        s.episodes.length + 1 ∧
      (MaterializationService.materialize_file_resolved s event).2.episode_links.length ≤
        s.episode_links.length + 1) ∧
    MaterializationService.materialize_file_resolved
        (MaterializationService.materialize_file_resolved s event).2 event =
      (.ok (MaterializationResult.skipped
        (MaterializationFingerprint.from_file_resolved event.file_id
          event.anime_title event.episode_number event.file_role)),
       (MaterializationService.materialize_file_resolved s event).2) := by
  have spec := MaterializationService.materialize_file_resolved_spec s event
  refine ⟨spec.1, ?_⟩
  have hex2 : MaterializationService.exists_by_fingerprint
      (MaterializationService.materialize_file_resolved s event).2
      (MaterializationFingerprint.from_file_resolved event.file_id
        event.anime_title event.episode_number event.file_role) = true := by
    by_cases hsk : res.outcome = .skipped
    · rcases spec.2.2.1 res h hsk with ⟨hstate, hex⟩
      rw [hstate]
      exact hex
    · rcases spec.2.2.2 res h hsk with ⟨r, hrec, hfp⟩
      unfold MaterializationService.exists_by_fingerprint
      rw [hrec]
      simp [hfp]
  exact MaterializationService.materialize_skip _ event hex2

/-- The event and state for the C2 witness: an empty catalog holding only
the file fact the event refers to. -/
def c2_event : FileResolved :=
  ⟨1, "Title - 01.mkv", "Title", none, "1", none, "video", 65, "filename",
   ResolutionFingerprint.success 1 "title" "1" "video"⟩

/-- Initial materialization state for the C2 witness. -/
def c2_mat_state : MatState :=
  ⟨[], [], [⟨1, "Title - 01.mkv", .video⟩], [], [], [], 100⟩

/-- Closed witness for the C2 theorem: materializing the fixture event twice
creates one work, one part and one link on the first call, and the second
call returns `Skipped` with the state unchanged. -/
theorem c2_witness :
    ((MaterializationService.materialize_file_resolved c2_mat_state
        c2_event).2.animes.length ≤ 1 ∧
      (MaterializationService.materialize_file_resolved c2_mat_state
        c2_event).2.episodes.length ≤ 1 ∧
      (MaterializationService.materialize_file_resolved c2_mat_state
        c2_event).2.episode_links.length ≤ 1) ∧
    MaterializationService.materialize_file_resolved
        (MaterializationService.materialize_file_resolved c2_mat_state
          c2_event).2 c2_event =
      (.ok (MaterializationResult.skipped
        (MaterializationFingerprint.ofFileResolved 1 "title" "1" "video")),
       (MaterializationService.materialize_file_resolved c2_mat_state
         c2_event).2) :=
  c2_materialization_idempotent c2_mat_state c2_event
    ⟨MaterializationFingerprint.ofFileResolved 1 "title" "1" "video",
     some 100, some 101, some 1, .animeCreated, true, true⟩ (by decide)

/-- The failing event for the C3 counterexample: a blank title, so the
created work fails domain validation before persistence. -/
def c3_event : FileResolved :=
  ⟨41, "x.mkv", " ", none, "1", none, "video", 65, "filename",
   ResolutionFingerprint.success 41 " " "1" "video"⟩

/-- Empty materialization state for the C3 counterexample. -/
def c3_mat_state : MatState := ⟨[], [], [], [], [], [], 100⟩

/-- C3, counterexample: a materialization call that fails (here with an
`InvariantViolation` from the blank title) returns without saving any
materialization record — the ledger stays empty, so not every outcome is
recorded. -/
theorem c3_counterexample :
    (MaterializationService.materialize_file_resolved c3_mat_state
      c3_event).1 =
      .error (.invariantViolation "Anime title cannot be empty") ∧
    (MaterializationService.materialize_file_resolved c3_mat_state
      c3_event).2.records = [] := by
  exact ⟨by decide, by decide⟩

/-- C3, amended: a materialization record keyed by the event fingerprint is
saved exactly by calls that complete the pipeline with a non-Skipped
outcome; a `Skipped` call returns relying on the already-existing record
without saving a new one, and a failing call propagates its error without
recording anything. -/
theorem c3_record_saving (s : MatState) (event : FileResolved) :
    (∀ err, (MaterializationService.materialize_file_resolved s event).1 =
        .error err →
      (MaterializationService.materialize_file_resolved s event).2.records =
        s.records) ∧
    (∀ res, (MaterializationService.materialize_file_resolved s event).1 =
        .ok res →
      res.outcome = .skipped →
      (MaterializationService.materialize_file_resolved s event).2 = s ∧
      MaterializationService.exists_by_fingerprint s
        (MaterializationFingerprint.from_file_resolved event.file_id
          event.anime_title event.episode_number event.file_role) = true) ∧
    (∀ res, (MaterializationService.materialize_file_resolved s event).1 =
        .ok res →
      res.outcome ≠ .skipped →
      ∃ r, (MaterializationService.materialize_file_resolved s
            event).2.records = s.records ++ [r] ∧
        r.fingerprint = MaterializationFingerprint.from_file_resolved
          event.file_id event.anime_title event.episode_number
          event.file_role) :=
  (MaterializationService.materialize_file_resolved_spec s event).2

/-- Closed witness for the amended C3 theorem: the failing fixture records
nothing, and the successful fixture appends exactly one record keyed by the
event fingerprint. -/
theorem c3_record_saving_witness :
    (MaterializationService.materialize_file_resolved c3_mat_state
      c3_event).2.records = c3_mat_state.records ∧
    ∃ r, (MaterializationService.materialize_file_resolved c2_mat_state
        c2_event).2.records = c2_mat_state.records ++ [r] ∧
      r.fingerprint = MaterializationFingerprint.ofFileResolved 1 "title"
        "1" "video" := by
  constructor
  · exact (c3_record_saving c3_mat_state c3_event).1
      (.invariantViolation "Anime title cannot be empty") (by decide)
  · exact (c3_record_saving c2_mat_state c2_event).2.2
      ⟨MaterializationFingerprint.ofFileResolved 1 "title" "1" "video",
       some 100, some 101, some 1, .animeCreated, true, true⟩
      (by decide) (by decide)

-- ============================================================================
-- C5: batch aggregation machinery
-- ============================================================================

/-- The contributing files of one batch run: the per-file loop in processing
order, keeping exactly the successfully resolved, non-skipped files. -/
def contribsFrom : ResolutionState → List File → List ResolvedFile
| _, [] => []
| st, file :: fs =>
  let result := resolve_file_internal st file
  let fingerprint := compute_fingerprint_from_result result
  let rest := contribsFrom (nextBatchState st file) fs
  if fingerprint ∈ st.resolved_fingerprints then rest
  else
    match result with
    | .success resolved => resolved :: rest
    | .failure _ => rest

/-- Recognizer for `EpisodeResolved` events. -/
def isEpisodeResolvedEvent : REvent → Bool
| .episodeResolved _ _ _ _ _ _ _ _ => true
| _ => false

/-- Recognizer for the `EpisodeResolved` event of one aggregation key. -/
def isEpisodeResolvedFor (k : AggKey) : REvent → Bool
| .episodeResolved anime_title _ episode_number _ _ _ _ _ =>
  decide ((strLower anime_title, episode_number) = k)
| _ => false

/-- Lookup in the aggregation association list. -/
def aggLookup (m : List (AggKey × EpisodeAggregation)) (k : AggKey) :
    Option EpisodeAggregation :=
  (m.find? (fun kv => decide (kv.1 = k))).map (fun kv => kv.2)

/-- The fresh aggregation entry created for the first contributor of a
key (before its own `add_file`). -/
def newOf (r : ResolvedFile) : EpisodeAggregation :=
  EpisodeAggregation.new r.anime_intent.title r.anime_intent.matched_anime_id
    r.episode_intent.number.toOutput r.episode_intent.matched_episode_id

/-- The unfolding equation of `contribsFrom` on a non-empty batch. -/
theorem contribsFrom_cons (st : ResolutionState) (f : File)
    (fs : List File) :
    contribsFrom st (f :: fs) =
      if compute_fingerprint_from_result (resolve_file_internal st f) ∈
          st.resolved_fingerprints then
        contribsFrom (nextBatchState st f) fs
      else
        match resolve_file_internal st f with
        | .success r => r :: contribsFrom (nextBatchState st f) fs
        | .failure _ => contribsFrom (nextBatchState st f) fs := rfl

/-- The state component of a batch loop step. -/
theorem batchStep_st (acc : BatchAcc) (f : File) :
    (batchStep acc f).st = nextBatchState acc.st f := by
  unfold batchStep
  dsimp only
  split
  · rfl
  · split <;> rfl

/-- The state threaded through the batch loop is the `nextBatchState`
iteration. -/
theorem foldl_batchStep_st (files : List File) (acc : BatchAcc) :
    (files.foldl batchStep acc).st = files.foldl nextBatchState acc.st := by
  induction files generalizing acc with
  | nil => rfl
  | cons f fs ih =>
    simp only [List.foldl]
    rw [ih, batchStep_st]

/-- The aggregation component of a skipped loop step. -/
theorem batchStep_agg_skip (acc : BatchAcc) (f : File)
    (hmem : compute_fingerprint_from_result
      (resolve_file_internal acc.st f) ∈ acc.st.resolved_fingerprints) :
    (batchStep acc f).agg = acc.agg := by
  unfold batchStep
  dsimp only
  rw [if_pos hmem]

/-- The aggregation component of a failing loop step. -/
theorem batchStep_agg_failure (acc : BatchAcc) (f : File)
    (fl : ResolutionFailure)
    (hres : resolve_file_internal acc.st f = .failure fl)
    (hmem : compute_fingerprint_from_result
      (resolve_file_internal acc.st f) ∉ acc.st.resolved_fingerprints) :
    (batchStep acc f).agg = acc.agg := by
  unfold batchStep
  dsimp only
  rw [if_neg hmem]
  simp [hres]

/-- The aggregation component of a successful fresh loop step. -/
theorem batchStep_agg_success (acc : BatchAcc) (f : File) (r : ResolvedFile)
    (hres : resolve_file_internal acc.st f = .success r)
    (hmem : compute_fingerprint_from_result
      (resolve_file_internal acc.st f) ∉ acc.st.resolved_fingerprints) :
    (batchStep acc f).agg = aggInsert acc.agg r := by
  unfold batchStep
  dsimp only
  rw [if_neg hmem]
  simp [hres]

/-- The final aggregation map of the batch loop is the `aggInsert` fold over
the contributing files. -/
theorem foldl_batchStep_agg (files : List File) (acc : BatchAcc) :
    (files.foldl batchStep acc).agg =
      (contribsFrom acc.st files).foldl aggInsert acc.agg := by
  induction files generalizing acc with
  | nil => rfl
  | cons f fs ih =>
    simp only [List.foldl]
    rw [ih, batchStep_st, contribsFrom_cons]
    by_cases hmem : compute_fingerprint_from_result
        (resolve_file_internal acc.st f) ∈ acc.st.resolved_fingerprints
    · rw [batchStep_agg_skip acc f hmem, if_pos hmem]
    · rw [if_neg hmem]
      cases hres : resolve_file_internal acc.st f with
      | success r =>
        rw [batchStep_agg_success acc f r hres hmem]
        simp
      | failure fl =>
        rw [batchStep_agg_failure acc f fl hres hmem]

/-- Each loop step appends exactly one non-`EpisodeResolved` event. -/
theorem nextBatchState_events_shape (st : ResolutionState) (f : File) :
    ∃ ev, (nextBatchState st f).events = st.events ++ [ev] ∧
      isEpisodeResolvedEvent ev = false := by
  unfold nextBatchState
  dsimp only
  by_cases hmem : compute_fingerprint_from_result
      (resolve_file_internal st f) ∈ st.resolved_fingerprints
  · rw [if_pos hmem]
    exact ⟨_, rfl, rfl⟩
  · rw [if_neg hmem]
    refine ⟨resolutionEventOf (resolve_file_internal st f), rfl, ?_⟩
    cases hres : resolve_file_internal st f <;>
      simp [resolutionEventOf, isEpisodeResolvedEvent]

/-- The loop emits only file-level events, never an `EpisodeResolved`. -/
theorem foldl_nextBatchState_events (files : List File)
    (st : ResolutionState) :
    ∃ L, (files.foldl nextBatchState st).events = st.events ++ L ∧
      ∀ e ∈ L, isEpisodeResolvedEvent e = false := by
  induction files generalizing st with
  | nil => exact ⟨[], by simp, by simp⟩
  | cons f fs ih =>
    rcases nextBatchState_events_shape st f with ⟨ev, hev, hno⟩
    rcases ih (nextBatchState st f) with ⟨L, hL, hLno⟩
    refine ⟨ev :: L, ?_, ?_⟩
    · simp only [List.foldl, hL, hev, List.append_assoc, List.singleton_append]
    · intro e he
      rcases List.mem_cons.mp he with he | he
      · rw [he]; exact hno
      · exact hLno e he

/-- An event that is not an `EpisodeResolved` matches no aggregation key. -/
theorem not_episodeResolved_for (k : AggKey) (e : REvent)
    (h : isEpisodeResolvedEvent e = false) :
    isEpisodeResolvedFor k e = false := by
  cases e <;> simp_all [isEpisodeResolvedEvent, isEpisodeResolvedFor]

/-- Lookup on a cons cell of the aggregation map. -/
theorem aggLookup_cons (kv : AggKey × EpisodeAggregation)
    (m : List (AggKey × EpisodeAggregation)) (k : AggKey) :
    aggLookup (kv :: m) k =
      if kv.1 = k then some kv.2 else aggLookup m k := by
  unfold aggLookup
  rw [List.find?_cons]
  by_cases h : kv.1 = k <;> simp [h]

/-- The keyed `add_file` update leaves lookups at other keys unchanged. -/
theorem aggLookup_map_other (m : List (AggKey × EpisodeAggregation))
    (r : ResolvedFile) (k : AggKey) (hne : aggKeyOf r ≠ k) :
    aggLookup (m.map (fun kv =>
      if kv.1 = aggKeyOf r then (kv.1, kv.2.add_file r) else kv)) k =
      aggLookup m k := by
  induction m with
  | nil => rfl
  | cons kv m ih =>
    simp only [List.map_cons]
    by_cases h1 : kv.1 = aggKeyOf r
    · rw [if_pos h1, aggLookup_cons, aggLookup_cons,
        if_neg (fun hh => hne (h1 ▸ hh)), if_neg (fun hh => hne (h1 ▸ hh)), ih]
    · rw [if_neg h1, aggLookup_cons, aggLookup_cons]
      by_cases h2 : kv.1 = k
      · rw [if_pos h2, if_pos h2]
      · rw [if_neg h2, if_neg h2, ih]

/-- `aggInsert` on a head already carrying the key of the file. -/
theorem aggInsert_cons_eq (kv : AggKey × EpisodeAggregation)
    (m : List (AggKey × EpisodeAggregation)) (r : ResolvedFile)
    (h : kv.1 = aggKeyOf r) :
    aggInsert (kv :: m) r =
      (kv.1, kv.2.add_file r) ::
        m.map (fun kv' =>
          if kv'.1 = aggKeyOf r then (kv'.1, kv'.2.add_file r) else kv') := by
  unfold aggInsert
  dsimp only
  rw [List.find?_cons]
  simp [h]

/-- `aggInsert` skips a head with a different key. -/
theorem aggInsert_cons_ne (kv : AggKey × EpisodeAggregation)
    (m : List (AggKey × EpisodeAggregation)) (r : ResolvedFile)
    (h : kv.1 ≠ aggKeyOf r) :
    aggInsert (kv :: m) r = kv :: aggInsert m r := by
  unfold aggInsert
  dsimp only
  rw [List.find?_cons]
  cases hf : m.find? (fun kv' => decide (kv'.1 = aggKeyOf r)) <;> simp [h, hf]

/-- The lookup behavior of one `aggInsert`. -/
theorem aggInsert_lookup (m : List (AggKey × EpisodeAggregation))
    (r : ResolvedFile) (k : AggKey) :
    aggLookup (aggInsert m r) k =
      if aggKeyOf r = k then
        some (match aggLookup m k with
              | some a => a.add_file r
              | none => (newOf r).add_file r)
      else aggLookup m k := by
  induction m with
  | nil =>
    by_cases hk : aggKeyOf r = k <;>
      simp [aggInsert, aggLookup, newOf, hk]
  | cons kv m ih =>
    by_cases h1 : kv.1 = aggKeyOf r
    · rw [aggInsert_cons_eq kv m r h1]
      by_cases hk : aggKeyOf r = k
      · rw [aggLookup_cons, if_pos (h1.trans hk), if_pos hk,
          aggLookup_cons, if_pos (h1.trans hk)]
      · rw [aggLookup_cons, if_neg (fun hh => hk (h1 ▸ hh)),
          aggLookup_map_other m r k hk, if_neg hk,
          aggLookup_cons, if_neg (fun hh => hk (h1 ▸ hh))]
    · rw [aggInsert_cons_ne kv m r h1]
      by_cases h2 : kv.1 = k
      · have hrk : ¬aggKeyOf r = k := fun hh => h1 (h2.trans hh.symm)
        rw [aggLookup_cons, if_pos h2, if_neg hrk, aggLookup_cons, if_pos h2]
      · by_cases hk : aggKeyOf r = k
        · rw [aggLookup_cons, if_neg h2, ih, if_pos hk, if_pos hk,
            aggLookup_cons, if_neg h2]
        · rw [aggLookup_cons, if_neg h2, ih, if_neg hk, if_neg hk,
            aggLookup_cons, if_neg h2]

/-- Folding `aggInsert` over files, seen from a key that already has an
entry: the entry absorbs exactly the files with that key, in order. -/
theorem foldl_aggInsert_lookup_some (rs : List ResolvedFile)
    (m : List (AggKey × EpisodeAggregation)) (k : AggKey)
    (a : EpisodeAggregation) (ha : aggLookup m k = some a) :
    aggLookup (rs.foldl aggInsert m) k =
      some ((rs.filter (fun r => decide (aggKeyOf r = k))).foldl
        EpisodeAggregation.add_file a) := by
  induction rs generalizing m a with
  | nil => simpa using ha
  | cons r rs ih =>
    simp only [List.foldl, List.filter_cons]
    by_cases hk : aggKeyOf r = k
    · have h2 : aggLookup (aggInsert m r) k = some (a.add_file r) := by
        rw [aggInsert_lookup, if_pos hk, ha]
      rw [ih _ _ h2]
      simp [hk]
    · have h2 : aggLookup (aggInsert m r) k = some a := by
        rw [aggInsert_lookup, if_neg hk, ha]
      rw [ih _ _ h2]
      simp [hk]

/-- Folding `aggInsert` over files, seen from an absent key: the first file
with that key creates the entry, later ones are folded into it. -/
theorem foldl_aggInsert_lookup_none (rs : List ResolvedFile)
    (m : List (AggKey × EpisodeAggregation)) (k : AggKey)
    (ha : aggLookup m k = none) :
    aggLookup (rs.foldl aggInsert m) k =
      match rs.filter (fun r => decide (aggKeyOf r = k)) with
      | [] => none
      | r0 :: rest => some (rest.foldl EpisodeAggregation.add_file
          ((newOf r0).add_file r0)) := by
  induction rs generalizing m with
  | nil => simpa using ha
  | cons r rs ih =>
    simp only [List.foldl, List.filter_cons]
    by_cases hk : aggKeyOf r = k
    · have h2 : aggLookup (aggInsert m r) k = some ((newOf r).add_file r) := by
        rw [aggInsert_lookup, if_pos hk, ha]
      rw [foldl_aggInsert_lookup_some rs _ k _ h2]
      simp [hk]
    · have h2 : aggLookup (aggInsert m r) k = none := by
        rw [aggInsert_lookup, if_neg hk, ha]
      rw [ih _ h2]
      simp [hk]

/-- `add_file` never changes the identifying fields of an entry. -/
theorem add_file_meta (agg : EpisodeAggregation) (r : ResolvedFile) :
    (agg.add_file r).anime_title = agg.anime_title ∧
    (agg.add_file r).episode_number = agg.episode_number ∧
    (agg.add_file r).matched_anime_id = agg.matched_anime_id ∧
    (agg.add_file r).matched_episode_id = agg.matched_episode_id := by
  unfold EpisodeAggregation.add_file
  dsimp only
  cases r.role <;> repeat' split
  all_goals simp

/-- The primary-video field of one `add_file`. -/
theorem add_file_video (agg : EpisodeAggregation) (r : ResolvedFile) :
    (agg.add_file r).video_file_id =
      if r.role = FileRole.video ∧ agg.video_file_id = none then
        some r.file_id
      else agg.video_file_id := by
  unfold EpisodeAggregation.add_file
  dsimp only
  cases hrole : r.role <;> cases hv : agg.video_file_id <;>
    repeat' split
  all_goals simp_all

/-- The subtitle list of one `add_file`. -/
theorem add_file_subs (agg : EpisodeAggregation) (r : ResolvedFile) :
    (agg.add_file r).subtitle_file_ids =
      agg.subtitle_file_ids ++
        (if r.role = FileRole.subtitle then [r.file_id] else []) := by
  unfold EpisodeAggregation.add_file
  dsimp only
  cases hrole : r.role <;> repeat' split
  all_goals simp_all

/-- The image list of one `add_file`. -/
theorem add_file_imgs (agg : EpisodeAggregation) (r : ResolvedFile) :
    (agg.add_file r).image_file_ids =
      agg.image_file_ids ++
        (if r.role = FileRole.image then [r.file_id] else []) := by
  unfold EpisodeAggregation.add_file
  dsimp only
  cases hrole : r.role <;> repeat' split
  all_goals simp_all

/-- The strict-compare update of the source is the lattice maximum. -/
theorem ifmax_eq_max (a b : Int) : (if a < b then b else a) = max a b := by
  by_cases h : a < b
  · simp [h, max_eq_right h.le]
  · simp [h, max_eq_left (not_lt.mp h)]

/-- The retained-confidence field of one `add_file`. -/
theorem add_file_max (agg : EpisodeAggregation) (r : ResolvedFile) :
    (agg.add_file r).max_confidence =
      max agg.max_confidence r.confidence.score := by
  unfold EpisodeAggregation.add_file
  dsimp only
  rw [← ifmax_eq_max]
  cases hrole : r.role <;> repeat' split
  all_goals simp_all

/-- Folded `add_file` keeps the identifying fields. -/
theorem foldl_add_file_meta (rs : List ResolvedFile)
    (agg : EpisodeAggregation) :
    (rs.foldl EpisodeAggregation.add_file agg).anime_title =
      agg.anime_title ∧
    (rs.foldl EpisodeAggregation.add_file agg).episode_number =
      agg.episode_number := by
  induction rs generalizing agg with
  | nil => exact ⟨rfl, rfl⟩
  | cons r rs ih =>
    simp only [List.foldl]
    rcases ih (agg.add_file r) with ⟨h1, h2⟩
    rw [h1, h2, (add_file_meta agg r).1, (add_file_meta agg r).2.1]
    exact ⟨rfl, rfl⟩

/-- Folded `add_file`: the primary video is the first video, in order. -/
theorem foldl_add_file_video (rs : List ResolvedFile)
    (agg : EpisodeAggregation) :
    (rs.foldl EpisodeAggregation.add_file agg).video_file_id =
      match agg.video_file_id with
      | some v => some v
      | none => (rs.find? (fun r => decide (r.role = FileRole.video))).map
          (fun r => r.file_id) := by
  induction rs generalizing agg with
  | nil => cases hv : agg.video_file_id <;> simp [hv]
  | cons r rs ih =>
    simp only [List.foldl]
    rw [ih]
    cases hv : agg.video_file_id with
    | some v =>
      have h2 : (agg.add_file r).video_file_id = some v := by
        rw [add_file_video]
        simp [hv]
      rw [h2]
    | none =>
      by_cases hr : r.role = FileRole.video
      · have h2 : (agg.add_file r).video_file_id = some r.file_id := by
          rw [add_file_video]
          simp [hv, hr]
        rw [h2, List.find?_cons]
        simp [hr]
      · have h2 : (agg.add_file r).video_file_id = none := by
          rw [add_file_video]
          simp [hv, hr]
        rw [h2, List.find?_cons]
        simp [hr]

/-- Folded `add_file`: subtitle ids are collected in order. -/
theorem foldl_add_file_subs (rs : List ResolvedFile)
    (agg : EpisodeAggregation) :
    (rs.foldl EpisodeAggregation.add_file agg).subtitle_file_ids =
      agg.subtitle_file_ids ++
        (rs.filter (fun r => decide (r.role = FileRole.subtitle))).map
          (fun r => r.file_id) := by
  induction rs generalizing agg with
  | nil => simp
  | cons r rs ih =>
    simp only [List.foldl, List.filter_cons]
    rw [ih, add_file_subs]
    by_cases hr : r.role = FileRole.subtitle <;> simp [hr]

/-- Folded `add_file`: image ids are collected in order. -/
theorem foldl_add_file_imgs (rs : List ResolvedFile)
    (agg : EpisodeAggregation) :
    (rs.foldl EpisodeAggregation.add_file agg).image_file_ids =
      agg.image_file_ids ++
        (rs.filter (fun r => decide (r.role = FileRole.image))).map
          (fun r => r.file_id) := by
  induction rs generalizing agg with
  | nil => simp
  | cons r rs ih =>
    simp only [List.foldl, List.filter_cons]
    rw [ih, add_file_imgs]
    by_cases hr : r.role = FileRole.image <;> simp [hr]

/-- Folded `add_file`: the retained confidence is the max fold of the
scores. -/
theorem foldl_add_file_max (rs : List ResolvedFile)
    (agg : EpisodeAggregation) :
    (rs.foldl EpisodeAggregation.add_file agg).max_confidence =
      (rs.map (fun r => r.confidence.score)).foldl max agg.max_confidence := by
  induction rs generalizing agg with
  | nil => rfl
  | cons r rs ih =>
    simp only [List.foldl, List.map_cons]
    rw [ih, add_file_max]

/-- A max fold over integers is attained by the seed or by an element. -/
theorem foldl_max_mem (xs : List Int) (a : Int) :
    xs.foldl max a = a ∨ xs.foldl max a ∈ xs := by
  induction xs generalizing a with
  | nil => exact Or.inl rfl
  | cons x xs ih =>
    simp only [List.foldl]
    rcases ih (max a x) with h | h
    · rw [h]
      rcases max_choice a x with h2 | h2
      · exact Or.inl h2
      · exact Or.inr (by rw [h2]; exact List.mem_cons_self x xs)
    · exact Or.inr (List.mem_cons_of_mem x h)

/-- A max fold over integers bounds the seed and every element. -/
theorem foldl_max_bound (xs : List Int) (a : Int) :
    a ≤ xs.foldl max a ∧ ∀ x ∈ xs, x ≤ xs.foldl max a := by
  induction xs generalizing a with
  | nil => exact ⟨le_refl a, by simp⟩
  | cons x xs ih =>
    rcases ih (max a x) with ⟨h1, h2⟩
    refine ⟨(le_max_left a x).trans h1, ?_⟩
    intro y hy
    rcases List.mem_cons.mp hy with rfl | hy
    · exact (le_max_right a y).trans h1
    · exact h2 y hy

/-- Every score built by `ResolutionConfidence::new` is non-negative. -/
theorem calculate_confidence_nonneg (a : String) (b : ResolvedEpisodeNumber)
    (c d : Bool) (e f : ResolutionSource) :
    0 ≤ (calculate_confidence a b c d e f).score :=
  le_max_left 0 _

/-- Successful resolutions carry a non-negative (clamped) score. -/
theorem resolve_success_conf_nonneg (s : ResolutionState) (f : File)
    (r : ResolvedFile) (h : resolve_file_internal s f = .success r) :
    0 ≤ r.confidence.score := by
  unfold resolve_file_internal at h
  dsimp only at h
  repeat' split at h
  all_goals first
    | (injection h with h2
       rw [← h2]
       exact calculate_confidence_nonneg _ _ _ _ _ _)
    | injection h

/-- Every contributing file of a batch carries a non-negative score. -/
theorem contribsFrom_conf_nonneg (files : List File) (st : ResolutionState)
    (r : ResolvedFile) (hr : r ∈ contribsFrom st files) :
    0 ≤ r.confidence.score := by
  induction files generalizing st with
  | nil => simp [contribsFrom] at hr
  | cons f fs ih =>
    rw [contribsFrom_cons] at hr
    by_cases hmem : compute_fingerprint_from_result
        (resolve_file_internal st f) ∈ st.resolved_fingerprints
    · rw [if_pos hmem] at hr
      exact ih _ hr
    · rw [if_neg hmem] at hr
      cases hres : resolve_file_internal st f with
      | success r0 =>
        simp only [hres] at hr
        rcases List.mem_cons.mp hr with rfl | hr
        · exact resolve_success_conf_nonneg st f r hres
        · exact ih _ hr
      | failure fl =>
        simp only [hres] at hr
        exact ih _ hr

/-- Well-formedness of the aggregation map: every entry is keyed by its own
normalized title and number string, and keys are unique. -/
def aggWellFormed (m : List (AggKey × EpisodeAggregation)) : Prop :=
  (∀ kv ∈ m, (strLower kv.2.anime_title, kv.2.episode_number) = kv.1) ∧
  (m.map Prod.fst).Nodup

/-- The keyed update preserves the key list. -/
theorem map_fst_keyupdate (m : List (AggKey × EpisodeAggregation))
    (r : ResolvedFile) :
    (m.map (fun kv =>
      if kv.1 = aggKeyOf r then (kv.1, kv.2.add_file r) else kv)).map
        Prod.fst = m.map Prod.fst := by
  induction m with
  | nil => rfl
  | cons kv m ih =>
    simp only [List.map_cons]
    by_cases h : kv.1 = aggKeyOf r <;> simp [h, ih]

/-- One `aggInsert` preserves well-formedness. -/
theorem aggInsert_wellFormed (m : List (AggKey × EpisodeAggregation))
    (r : ResolvedFile) (h : aggWellFormed m) :
    aggWellFormed (aggInsert m r) := by
  obtain ⟨hOK, hND⟩ := h
  unfold aggInsert
  dsimp only
  cases hf : m.find? (fun kv => decide (kv.1 = aggKeyOf r)) with
  | some kv0 =>
    constructor
    · intro kv hkv
      rcases List.mem_map.mp hkv with ⟨kv2, hkv2, hfkv⟩
      by_cases h1 : kv2.1 = aggKeyOf r
      · rw [if_pos h1] at hfkv
        rw [← hfkv]
        have hm := hOK kv2 hkv2
        simp only [(add_file_meta kv2.2 r).1, (add_file_meta kv2.2 r).2.1]
        exact hm
      · rw [if_neg h1] at hfkv
        rw [← hfkv]
        exact hOK kv2 hkv2
    · rw [map_fst_keyupdate]
      exact hND
  | none =>
    have hnotin : aggKeyOf r ∉ m.map Prod.fst := by
      intro hin
      rcases List.mem_map.mp hin with ⟨kv2, hkv2, hk⟩
      have h2 := List.find?_eq_none.mp hf kv2 hkv2
      simp [hk] at h2
    constructor
    · intro kv hkv
      rcases List.mem_append.mp hkv with h1 | h1
      · exact hOK kv h1
      · have h2 : kv = (aggKeyOf r,
          (EpisodeAggregation.new r.anime_intent.title
            r.anime_intent.matched_anime_id r.episode_intent.number.toOutput
            r.episode_intent.matched_episode_id).add_file r) := by
          simpa using h1
        rw [h2]
        simp only [(add_file_meta _ r).1, (add_file_meta _ r).2.1]
        rfl
    · rw [List.map_append]
      refine List.Nodup.append hND (List.nodup_singleton _) ?_
      intro a ha hb
      simp at hb
      rw [hb] at ha
      exact hnotin ha

/-- The whole fold preserves well-formedness. -/
theorem foldl_aggInsert_wellFormed (rs : List ResolvedFile)
    (m : List (AggKey × EpisodeAggregation)) (h : aggWellFormed m) :
    aggWellFormed (rs.foldl aggInsert m) := by
  induction rs generalizing m with
  | nil => exact h
  | cons r rs ih => exact ih _ (aggInsert_wellFormed m r h)

/-- The recognizer on the event of a well-keyed entry tests its key. -/
theorem isEpisodeResolvedFor_into_event (k : AggKey)
    (kv : AggKey × EpisodeAggregation)
    (hOK : (strLower kv.2.anime_title, kv.2.episode_number) = kv.1) :
    isEpisodeResolvedFor k kv.2.into_event = decide (kv.1 = k) := by
  show decide ((strLower kv.2.anime_title, kv.2.episode_number) = k) =
    decide (kv.1 = k)
  rw [hOK]

/-- In a well-formed map holding key k, the `EpisodeResolved` events filter
down to exactly the entry of k. -/
theorem aggEvents_filter (m : List (AggKey × EpisodeAggregation))
    (k : AggKey) :
    ∀ a, aggWellFormed m → aggLookup m k = some a →
      (m.map (fun kv => kv.2.into_event)).filter (isEpisodeResolvedFor k) =
        [a.into_event] := by
  induction m with
  | nil =>
    intro a _ ha
    simp [aggLookup] at ha
  | cons kv m ih =>
    intro a hWF ha
    obtain ⟨hOK, hND⟩ := hWF
    rw [aggLookup_cons] at ha
    simp only [List.map_cons, List.filter_cons]
    by_cases h1 : kv.1 = k
    · rw [if_pos h1] at ha
      injection ha with ha
      rw [isEpisodeResolvedFor_into_event k kv
        (hOK kv (List.mem_cons_self _ _))]
      have hrest : (m.map (fun kv => kv.2.into_event)).filter
          (isEpisodeResolvedFor k) = [] := by
        rw [List.filter_eq_nil_iff]
        intro e he
        rcases List.mem_map.mp he with ⟨kv2, hkv2, hkv2e⟩
        rw [← hkv2e, isEpisodeResolvedFor_into_event k kv2
          (hOK kv2 (List.mem_cons_of_mem _ hkv2))]
        simp only [decide_eq_true_eq]
        intro hk2
        exact (List.nodup_cons.mp hND).1
          (by rw [h1, ← hk2]; exact List.mem_map_of_mem Prod.fst hkv2)
      rw [hrest]
      simp [h1, ha]
    · rw [if_neg h1] at ha
      rw [isEpisodeResolvedFor_into_event k kv
        (hOK kv (List.mem_cons_self _ _))]
      simp only [decide_eq_false h1, Bool.false_eq_true, if_false]
      exact ih a ⟨fun kv2 hkv2 => hOK kv2 (List.mem_cons_of_mem _ hkv2),
        (List.nodup_cons.mp hND).2⟩ ha

/-- The concrete fields of the aggregation entry built from its ordered
contributors. -/
theorem entry_spec (r0 : ResolvedFile) (rest : List ResolvedFile) :
    (rest.foldl EpisodeAggregation.add_file
      ((newOf r0).add_file r0)).anime_title = r0.anime_intent.title ∧
    (rest.foldl EpisodeAggregation.add_file
      ((newOf r0).add_file r0)).episode_number =
        r0.episode_intent.number.toOutput ∧
    (rest.foldl EpisodeAggregation.add_file
      ((newOf r0).add_file r0)).video_file_id =
      ((r0 :: rest).find? (fun r => decide (r.role = FileRole.video))).map
        (fun r => r.file_id) ∧
    (rest.foldl EpisodeAggregation.add_file
      ((newOf r0).add_file r0)).subtitle_file_ids =
      ((r0 :: rest).filter (fun r => decide (r.role = FileRole.subtitle))).map
        (fun r => r.file_id) ∧
    (rest.foldl EpisodeAggregation.add_file
      ((newOf r0).add_file r0)).image_file_ids =
      ((r0 :: rest).filter (fun r => decide (r.role = FileRole.image))).map
        (fun r => r.file_id) ∧
    (rest.foldl EpisodeAggregation.add_file
      ((newOf r0).add_file r0)).max_confidence =
      ((r0 :: rest).map (fun r => r.confidence.score)).foldl max 0 := by
  refine ⟨?_, ?_, ?_, ?_, ?_, ?_⟩
  · rw [(foldl_add_file_meta rest _).1, (add_file_meta _ r0).1]
    rfl
  · rw [(foldl_add_file_meta rest _).2, (add_file_meta _ r0).2.1]
    rfl
  · rw [foldl_add_file_video]
    by_cases hr0 : r0.role = FileRole.video
    · have h2 : ((newOf r0).add_file r0).video_file_id = some r0.file_id := by
        rw [add_file_video]
        simp [hr0, newOf, EpisodeAggregation.new]
      rw [h2, List.find?_cons]
      simp [hr0]
    · have h2 : ((newOf r0).add_file r0).video_file_id = none := by
        rw [add_file_video]
        simp [hr0, newOf, EpisodeAggregation.new]
      rw [h2, List.find?_cons]
      simp [hr0]
  · rw [foldl_add_file_subs, add_file_subs, List.filter_cons]
    by_cases hr0 : r0.role = FileRole.subtitle <;>
      simp [hr0, newOf, EpisodeAggregation.new]
  · rw [foldl_add_file_imgs, add_file_imgs, List.filter_cons]
    by_cases hr0 : r0.role = FileRole.image <;>
      simp [hr0, newOf, EpisodeAggregation.new]
  · rw [foldl_add_file_max, add_file_max, List.map_cons, List.foldl_cons]
    have h2 : (newOf r0).max_confidence = 0 := rfl
    rw [h2]

/-- The event log produced by `resolve_batch`: the per-file loop events, then
one event per aggregation entry, then the batch-completion event. -/
theorem resolve_batch_events (s : ResolutionState) (files : List File) :
    (resolve_batch s files).2.events =
      (files.foldl nextBatchState s).events
        ++ ((contribsFrom s files).foldl aggInsert []).map
            (fun kv => kv.2.into_event)
        ++ [REvent.resolutionBatchCompleted files.length
              (files.foldl batchStep ⟨s, [], 0, 0, 0, []⟩).resolved_count
              (files.foldl batchStep ⟨s, [], 0, 0, 0, []⟩).failed_count
              (files.foldl batchStep ⟨s, [], 0, 0, 0, []⟩).skipped_count
              ((contribsFrom s files).foldl aggInsert []).length] := by
  unfold resolve_batch
  dsimp only
  rw [foldl_batchStep_st, foldl_batchStep_agg]

/-- Filtering the batch event block for one key keeps exactly the entry of
that key. -/
theorem filter_events_block (k : AggKey) (L : List REvent)
    (M : List (AggKey × EpisodeAggregation)) (bc : REvent)
    (hLno : ∀ e ∈ L, isEpisodeResolvedEvent e = false)
    (hbc : isEpisodeResolvedEvent bc = false)
    (a : EpisodeAggregation)
    (hM : (M.map (fun kv => kv.2.into_event)).filter
      (isEpisodeResolvedFor k) = [a.into_event]) :
    (L ++ M.map (fun kv => kv.2.into_event) ++ [bc]).filter
      (isEpisodeResolvedFor k) = [a.into_event] := by
  rw [List.filter_append, List.filter_append, hM]
  have h1 : L.filter (isEpisodeResolvedFor k) = [] := by
    rw [List.filter_eq_nil_iff]
    intro e he
    simp [not_episodeResolved_for k e (hLno e he)]
  have h2 : [bc].filter (isEpisodeResolvedFor k) = [] := by
    simp [not_episodeResolved_for k bc hbc]
  rw [h1, h2]
  rfl

/-- C5: in batch resolution, for every aggregation key with at least one
successfully resolved, non-skipped contributing file, the emitted log extends
the prior log with a block containing exactly one `EpisodeResolved` event for
that key; that event carries the key itself (lowercased title and number
string), the file id of the first video contributor in processing order, the
file ids of exactly the contributing subtitle files and exactly the
contributing image files in order, and the maximum confidence over all
contributors, which is attained by one of them and bounds them all. -/
theorem c5_batch_aggregation (s : ResolutionState) (files : List File)
    (k : AggKey)
    (hk : (contribsFrom s files).filter
      (fun r => decide (aggKeyOf r = k)) ≠ []) :
    ∃ E, (resolve_batch s files).2.events = s.events ++ E ∧
      (E.filter (isEpisodeResolvedFor k)).length = 1 ∧
      ∀ e ∈ E, isEpisodeResolvedFor k e = true →
        ∃ title aid eid,
          strLower title = k.1 ∧
          e = REvent.episodeResolved title aid k.2 eid
            ((((contribsFrom s files).filter
                (fun r => decide (aggKeyOf r = k))).find?
                (fun r => decide (r.role = FileRole.video))).map
              (fun r => r.file_id))
            ((((contribsFrom s files).filter
                (fun r => decide (aggKeyOf r = k))).filter
                (fun r => decide (r.role = FileRole.subtitle))).map
              (fun r => r.file_id))
            ((((contribsFrom s files).filter
                (fun r => decide (aggKeyOf r = k))).filter
                (fun r => decide (r.role = FileRole.image))).map
              (fun r => r.file_id))
            ((((contribsFrom s files).filter
                (fun r => decide (aggKeyOf r = k))).map
              (fun r => r.confidence.score)).foldl max 0) ∧
          ((((contribsFrom s files).filter
              (fun r => decide (aggKeyOf r = k))).map
            (fun r => r.confidence.score)).foldl max 0) ∈
            (((contribsFrom s files).filter
              (fun r => decide (aggKeyOf r = k))).map
            (fun r => r.confidence.score)) ∧
          ∀ q ∈ (((contribsFrom s files).filter
              (fun r => decide (aggKeyOf r = k))).map
            (fun r => r.confidence.score)),
            q ≤ (((contribsFrom s files).filter
              (fun r => decide (aggKeyOf r = k))).map
            (fun r => r.confidence.score)).foldl max 0 := by
  cases hcf : (contribsFrom s files).filter
      (fun r => decide (aggKeyOf r = k)) with
  | nil => exact absurd hcf hk
  | cons r0 rest =>
  have hr0f : r0 ∈ (contribsFrom s files).filter
      (fun r => decide (aggKeyOf r = k)) := by
    rw [hcf]
    exact List.mem_cons_self r0 rest
  have hk0 : aggKeyOf r0 = k :=
    of_decide_eq_true (List.mem_filter.mp hr0f).2
  have hk1 : strLower r0.anime_intent.title = k.1 := congrArg Prod.fst hk0
  have hk2 : r0.episode_intent.number.toOutput = k.2 := congrArg Prod.snd hk0
  have hMk : aggLookup ((contribsFrom s files).foldl aggInsert []) k =
      some (rest.foldl EpisodeAggregation.add_file
        ((newOf r0).add_file r0)) := by
    rw [foldl_aggInsert_lookup_none (contribsFrom s files) [] k rfl, hcf]
  have hWF : aggWellFormed ((contribsFrom s files).foldl aggInsert []) :=
    foldl_aggInsert_wellFormed _ [] ⟨by simp, List.nodup_nil⟩
  have hfilterM := aggEvents_filter ((contribsFrom s files).foldl aggInsert [])
    k (rest.foldl EpisodeAggregation.add_file ((newOf r0).add_file r0))
    hWF hMk
  obtain ⟨L, hL, hLno⟩ := foldl_nextBatchState_events files s
  obtain ⟨hA, hN, hV, hS, hI, hM⟩ := entry_spec r0 rest
  have hEfilter := filter_events_block k L
    ((contribsFrom s files).foldl aggInsert [])
    (REvent.resolutionBatchCompleted files.length
      (files.foldl batchStep ⟨s, [], 0, 0, 0, []⟩).resolved_count
      (files.foldl batchStep ⟨s, [], 0, 0, 0, []⟩).failed_count
      (files.foldl batchStep ⟨s, [], 0, 0, 0, []⟩).skipped_count
      ((contribsFrom s files).foldl aggInsert []).length)
    hLno rfl
    (rest.foldl EpisodeAggregation.add_file ((newOf r0).add_file r0))
    hfilterM
  refine ⟨L ++ ((contribsFrom s files).foldl aggInsert []).map
      (fun kv => kv.2.into_event) ++
      [REvent.resolutionBatchCompleted files.length
        (files.foldl batchStep ⟨s, [], 0, 0, 0, []⟩).resolved_count
        (files.foldl batchStep ⟨s, [], 0, 0, 0, []⟩).failed_count
        (files.foldl batchStep ⟨s, [], 0, 0, 0, []⟩).skipped_count
        ((contribsFrom s files).foldl aggInsert []).length],
    ?_, ?_, ?_⟩
  · rw [resolve_batch_events, hL]
    simp [List.append_assoc]
  · rw [hEfilter]
    rfl
  · intro e heE hpe
    have heF := List.mem_filter.mpr ⟨heE, hpe⟩
    rw [hEfilter] at heF
    have he2 : e = (rest.foldl EpisodeAggregation.add_file
        ((newOf r0).add_file r0)).into_event := List.mem_singleton.mp heF
    refine ⟨(rest.foldl EpisodeAggregation.add_file
        ((newOf r0).add_file r0)).anime_title,
      (rest.foldl EpisodeAggregation.add_file
        ((newOf r0).add_file r0)).matched_anime_id,
      (rest.foldl EpisodeAggregation.add_file
        ((newOf r0).add_file r0)).matched_episode_id, ?_, ?_, ?_, ?_⟩
    · rw [hA]
      exact hk1
    · rw [he2]
      unfold EpisodeAggregation.into_event
      rw [hN, hV, hS, hI, hM, hk2]
    · rcases foldl_max_mem ((r0 :: rest).map (fun r => r.confidence.score)) 0
        with h0 | hmem
      · have hb := (foldl_max_bound
          ((r0 :: rest).map (fun r => r.confidence.score)) 0).2
          r0.confidence.score
          (List.mem_map_of_mem _ (List.mem_cons_self r0 rest))
        rw [h0] at hb
        have hnn : 0 ≤ r0.confidence.score :=
          contribsFrom_conf_nonneg files s r0 (List.mem_of_mem_filter hr0f)
        rw [h0, ← le_antisymm hb hnn]
        exact List.mem_map_of_mem _ (List.mem_cons_self r0 rest)
      · exact hmem
    · exact (foldl_max_bound
        ((r0 :: rest).map (fun r => r.confidence.score)) 0).2

/-- Fixtures for the batch-aggregation claim: the catalog holds the work
"ABC" with regular part 1, and the batch holds a video, a subtitle and an
image file that all resolve successfully to the key ("abc", "1"). -/
def c5_state : ResolutionState :=
  ⟨[], [⟨50, "ABC", [], none, none⟩], [⟨51, 50, .regular 1, none, 0⟩], [], []⟩

/-- The batch of the aggregation fixture. -/
def c5_files : List File :=
  [⟨60, "ABC - 01.mkv", .video⟩, ⟨61, "ABC - 01.srt", .legenda⟩,
   ⟨62, "ABC - 01.jpg", .imagem⟩]

theorem c5_witness :
    (contribsFrom c5_state c5_files).filter
        (fun r => decide (aggKeyOf r = ("abc", "1"))) ≠ [] ∧
    (∃ E, (resolve_batch c5_state c5_files).2.events =
        c5_state.events ++ E ∧
      (E.filter (isEpisodeResolvedFor ("abc", "1"))).length = 1 ∧
      ∀ e ∈ E, isEpisodeResolvedFor ("abc", "1") e = true →
        ∃ title aid eid,
          strLower title = ("abc", "1").1 ∧
          e = REvent.episodeResolved title aid ("abc", "1").2 eid
            ((((contribsFrom c5_state c5_files).filter
                (fun r => decide (aggKeyOf r = ("abc", "1")))).find?
                (fun r => decide (r.role = FileRole.video))).map
              (fun r => r.file_id))
            ((((contribsFrom c5_state c5_files).filter
                (fun r => decide (aggKeyOf r = ("abc", "1")))).filter
                (fun r => decide (r.role = FileRole.subtitle))).map
              (fun r => r.file_id))
            ((((contribsFrom c5_state c5_files).filter
                (fun r => decide (aggKeyOf r = ("abc", "1")))).filter
                (fun r => decide (r.role = FileRole.image))).map
              (fun r => r.file_id))
            ((((contribsFrom c5_state c5_files).filter
                (fun r => decide (aggKeyOf r = ("abc", "1")))).map
              (fun r => r.confidence.score)).foldl max 0) ∧
          ((((contribsFrom c5_state c5_files).filter
              (fun r => decide (aggKeyOf r = ("abc", "1")))).map
            (fun r => r.confidence.score)).foldl max 0) ∈
            (((contribsFrom c5_state c5_files).filter
              (fun r => decide (aggKeyOf r = ("abc", "1")))).map
            (fun r => r.confidence.score)) ∧
          ∀ q ∈ (((contribsFrom c5_state c5_files).filter
              (fun r => decide (aggKeyOf r = ("abc", "1")))).map
            (fun r => r.confidence.score)),
            q ≤ (((contribsFrom c5_state c5_files).filter
              (fun r => decide (aggKeyOf r = ("abc", "1")))).map
            (fun r => r.confidence.score)).foldl max 0) :=
  ⟨by decide,
   c5_batch_aggregation c5_state c5_files ("abc", "1") (by decide)⟩

end AnimeHub
